import Mathlib

/-!
Verification of the TunnelAI-Lab simulation-and-constraint core.

This file shallowly embeds the Python sources of the repository into Lean:

* `sim/event_generator.py`   — `Scenario`, `inflow`, `incident_flag`,
  `incident_type_code`, `weather_flag`, `weather_type_code`,
  `capacity_factor`, `controls`;
* `sim/traffic_model.py`     — `TrafficParams`, `TrafficState`,
  `fundamental_speed`, `capacity_shaped_outflow`, `step_traffic`;
* `core/sim/traffic_model.py` — the second `step_traffic` variant that also
  returns the outflow (namespace `coresim`);
* `sim/emission_model.py`    — `EmissionParams`, `EmissionState`,
  `emission_per_vehicle`, `ventilation_flow`, `step_emissions`;
* `streaming/opcua_mock_server.py` — tag helpers, the hysteresis fan
  controller `fan_stage_with_hysteresis`, and the snapshot loop
  `generate_stream`;
* `core/constraint_layer/sti_rules.py` — the safety constraint engine
  `filter_recommendation` and the stateful `STIEngine`.

Python floats are modelled as exact rationals (`Rat`).  Transcendental
library calls (`math.sin`, `math.exp`, float `**`, `math.pi`) and the seeded
Gaussian noise source `random.Random(seed).gauss` are deterministic functions
of their inputs; they are abstracted into a `MathFns` record that every
theorem universally quantifies over, so every statement holds for the actual
float implementations as a special case.
-/

/-- Deterministic interpretations of the transcendental / PRNG primitives the
Python code calls: `math.sin`, `math.exp`, float `x ** y`, `math.pi`, and
`random.Random(seed).gauss(0.0, sigma)` modelled as a pure function of the
seed, the number of draws made so far, and `sigma`. -/
structure MathFns where
  sin : Rat → Rat
  exp : Rat → Rat
  pow : Rat → Rat → Rat
  pi : Rat
  gauss : Int → Nat → Rat → Rat

/-! ## sim/event_generator.py -/

/-- Source: `EVENT_TYPE_TO_CODE` lookup table in `sim/event_generator.py`. -/
def EVENT_TYPE_TO_CODE : List (String × Int) :=
  [("none", 0), ("collision", 1), ("stalled_vehicle", 2),
   ("wrong_way_driver", 3), ("vehicle_fire", 4), ("flooding", 5)]

/-- Source: `WEATHER_TO_CODE` lookup table in `sim/event_generator.py`. -/
def WEATHER_TO_CODE : List (String × Int) :=
  [("clear", 0), ("rain", 1), ("fog", 2), ("snow", 3)]

/-- Source: dataclass `Scenario` in `sim/event_generator.py`, with the same
field defaults. -/
structure Scenario where
  scenario_id : String := "A_stau_peak_incident_v1"
  seed : Int := 42
  duration_s : Int := 7200
  q_in_base_veh_per_h : Rat := 2200
  q_in_peak_amp_veh_per_h : Rat := 1200
  q_in_peak_period_s : Int := 1800
  incident_start_s : Int := 2400
  incident_end_s : Int := 3600
  incident_capacity_drop : Rat := 0.35
  incident_type : String := "collision"
  incident_severity : Rat := 0.60
  weather_type : String := "clear"
  weather_start_s : Int := 0
  weather_end_s : Int := 0
  weather_visibility_drop_pct : Rat := 0
  weather_speed_drop_kmh : Rat := 0
  vms_speed_limit_kmh : Rat := 80
  fan_stage : Int := 2

/-- Source: `inflow` in `sim/event_generator.py`:
`max(0, base + amp * sin(2*pi*t/period))`.  The division by the integer
`q_in_peak_period_s` raises `ZeroDivisionError` in the source when the period
is zero; that error path is modelled as `none`. -/
def inflow (fns : MathFns) (sc : Scenario) (t_s : Int) : Option Rat :=
  if sc.q_in_peak_period_s = 0 then none
  else
    let q := sc.q_in_base_veh_per_h +
      sc.q_in_peak_amp_veh_per_h *
        fns.sin (2 * fns.pi * (t_s : Rat) / (sc.q_in_peak_period_s : Rat))
    some (max 0 q)

/-- Source: `incident_flag` in `sim/event_generator.py`:
`int(incident_start_s <= t_s < incident_end_s)`. -/
def incident_flag (sc : Scenario) (t_s : Int) : Int :=
  if sc.incident_start_s ≤ t_s ∧ t_s < sc.incident_end_s then 1 else 0

/-- Source: `incident_type_code` in `sim/event_generator.py`. -/
def incident_type_code (sc : Scenario) (t_s : Int) : Int :=
  if incident_flag sc t_s = 0 then 0
  else (EVENT_TYPE_TO_CODE.lookup sc.incident_type).getD
    ((EVENT_TYPE_TO_CODE.lookup "collision").getD 0)

/-- Source: `weather_flag` in `sim/event_generator.py`. -/
def weather_flag (sc : Scenario) (t_s : Int) : Int :=
  if sc.weather_start_s ≤ t_s ∧ t_s < sc.weather_end_s then 1 else 0

/-- Source: `weather_type_code` in `sim/event_generator.py`. -/
def weather_type_code (sc : Scenario) (t_s : Int) : Int :=
  if weather_flag sc t_s = 0 then 0
  else (WEATHER_TO_CODE.lookup sc.weather_type).getD
    ((WEATHER_TO_CODE.lookup "clear").getD 0)

/-- Source: `capacity_factor` in `sim/event_generator.py`. -/
def capacity_factor (sc : Scenario) (t_s : Int) : Rat :=
  let factor : Rat := 1
  let factor :=
    if incident_flag sc t_s ≠ 0 then
      let severity := min 1 (max 0 sc.incident_severity)
      factor * max 0.1 (1 - sc.incident_capacity_drop * (0.5 + 0.5 * severity))
    else factor
  let factor := if weather_flag sc t_s ≠ 0 then factor * 0.92 else factor
  max 0.1 factor

/-- Source: `controls` in `sim/event_generator.py`; returns the pair
(VMS speed limit, fan stage). -/
def controls (sc : Scenario) (t_s : Int) : Rat × Int :=
  let vms := sc.vms_speed_limit_kmh
  let vms :=
    if weather_flag sc t_s ≠ 0 then max 40 (vms - sc.weather_speed_drop_kmh)
    else vms
  (vms, sc.fan_stage)

/-! ## sim/traffic_model.py -/

/-- Source: dataclass `TrafficParams`; the identical dataclass also appears in
`core/sim/traffic_model.py`, so both embeddings share it. -/
structure TrafficParams where
  dt_s : Rat := 1
  segment_length_km : Rat := 1
  v_free_kmh : Rat := 100
  rho_max_veh_per_km : Rat := 180
  gamma : Rat := 2
  kappa_v : Rat := 0.25
  q_max_veh_per_h : Rat := 3600
  rho_crit_veh_per_km : Rat := 45

/-- Source: dataclass `TrafficState` (identical in both traffic model files). -/
structure TrafficState where
  rho_veh_per_km : Rat
  v_kmh : Rat
  queue_index : Rat := 0

/-- Source: `fundamental_speed` in `sim/traffic_model.py`. -/
def fundamental_speed (fns : MathFns) (p : TrafficParams) (rho : Rat) : Rat :=
  let x := max 0 (min 1 (rho / p.rho_max_veh_per_km))
  p.v_free_kmh * (1 - fns.pow x p.gamma)

/-- Source: `_capacity_shaped_outflow` in `sim/traffic_model.py`. -/
def capacity_shaped_outflow (fns : MathFns) (p : TrafficParams)
    (rho speed q_max : Rat) : Rat :=
  let base := max 0 rho * max 0 speed
  let sat := q_max * (1 - fns.exp (-(max 0 rho) / max (1 / 1000000) p.rho_crit_veh_per_km))
  min base sat

/-- Source: `step_traffic` in `sim/traffic_model.py` (the variant returning
only the next `TrafficState`). -/
def step_traffic (fns : MathFns) (p : TrafficParams) (s : TrafficState)
    (q_in_veh_per_h vms_speed_limit_kmh cf : Rat) : TrafficState :=
  let dt := p.dt_s
  let dt_h := dt / 3600
  let q_max := p.q_max_veh_per_h * max 0.1 cf
  let v_des := min (fundamental_speed fns p s.rho_veh_per_km) vms_speed_limit_kmh
  let queue_growth := max 0 (q_in_veh_per_h - q_max) / max 1 p.q_max_veh_per_h
  let queue_next := min 1 (max 0 (0.97 * s.queue_index + 0.08 * queue_growth))
  let queue_drag := 1 - 0.45 * queue_next
  let v_des := v_des * max 0.25 queue_drag
  let v_next := s.v_kmh + p.kappa_v * (v_des - s.v_kmh) * dt
  let q_out := capacity_shaped_outflow fns p s.rho_veh_per_km s.v_kmh q_max
  let rho_next := s.rho_veh_per_km + (dt_h / p.segment_length_km) * (q_in_veh_per_h - q_out)
  let rho_next := max 0 (min p.rho_max_veh_per_km rho_next)
  let v_next := max 0 (min p.v_free_kmh v_next)
  { rho_veh_per_km := rho_next, v_kmh := v_next, queue_index := queue_next }

namespace coresim

/-- Source: `fundamental_speed` in `core/sim/traffic_model.py`. -/
def fundamental_speed (fns : MathFns) (p : TrafficParams) (rho : Rat) : Rat :=
  let x := max 0 (min 1 (rho / p.rho_max_veh_per_km))
  p.v_free_kmh * (1 - fns.pow x p.gamma)

/-- Source: `_capacity_shaped_outflow` in `core/sim/traffic_model.py`. -/
def capacity_shaped_outflow (fns : MathFns) (p : TrafficParams)
    (rho speed q_max : Rat) : Rat :=
  let base := max 0 rho * max 0 speed
  let sat := q_max * (1 - fns.exp (-(max 0 rho) / max (1 / 1000000) p.rho_crit_veh_per_km))
  min base sat

/-- Source: `step_traffic` in `core/sim/traffic_model.py` (the variant
returning the pair `(state_next, q_out_veh_per_h)`). -/
def step_traffic (fns : MathFns) (p : TrafficParams) (s : TrafficState)
    (q_in_veh_per_h vms_speed_limit_kmh cf : Rat) : TrafficState × Rat :=
  let dt := p.dt_s
  let dt_h := dt / 3600
  let q_max := p.q_max_veh_per_h * max 0.1 cf
  let v_des := min (fundamental_speed fns p s.rho_veh_per_km) vms_speed_limit_kmh
  let queue_growth := max 0 (q_in_veh_per_h - q_max) / max 1 p.q_max_veh_per_h
  let queue_next := min 1 (max 0 (0.97 * s.queue_index + 0.08 * queue_growth))
  let queue_drag := 1 - 0.45 * queue_next
  let v_des := v_des * max 0.25 queue_drag
  let v_next := s.v_kmh + p.kappa_v * (v_des - s.v_kmh) * dt
  let q_out := capacity_shaped_outflow fns p s.rho_veh_per_km s.v_kmh q_max
  let rho_next := s.rho_veh_per_km + (dt_h / p.segment_length_km) * (q_in_veh_per_h - q_out)
  let rho_next := max 0 (min p.rho_max_veh_per_km rho_next)
  let v_next := max 0 (min p.v_free_kmh v_next)
  ({ rho_veh_per_km := rho_next, v_kmh := v_next, queue_index := queue_next }, q_out)

end coresim

/-! ## sim/emission_model.py -/

/-- Source: dataclass `EmissionParams` in `sim/emission_model.py`. -/
structure EmissionParams where
  dt_s : Rat := 1
  air_volume_m3 : Rat := 300000
  Q0_m3_per_s : Rat := 60
  Q1_m3_per_s_per_stage : Rat := 40
  e_a0 : Rat := 0.6
  e_a1 : Rat := 40
  e_a2 : Rat := 0.005
  e_delta : Rat := 5
  co_scale : Rat := 0.002
  vis_beta0 : Rat := 0.0008
  vis_beta1 : Rat := 0.0012
  vis_beta2_incident : Rat := 0.02
  source_tau_s : Rat := 35

/-- Source: dataclass `EmissionState` in `sim/emission_model.py`. -/
structure EmissionState where
  co_ppm : Rat
  vis_proxy : Rat
  co_source_proxy : Rat := 0

/-- Source: `emission_per_vehicle` in `sim/emission_model.py`. -/
def emission_per_vehicle (p : EmissionParams) (v_kmh : Rat) : Rat :=
  let v := max 0 v_kmh
  p.e_a0 + p.e_a1 / (v + p.e_delta) + p.e_a2 * v

/-- Source: `ventilation_flow` in `sim/emission_model.py`. -/
def ventilation_flow (p : EmissionParams) (fan_stage : Int) : Rat :=
  p.Q0_m3_per_s + p.Q1_m3_per_s_per_stage * ((max 0 fan_stage : Int) : Rat)

/-- Source: `step_emissions` in `sim/emission_model.py`. -/
def step_emissions (p : EmissionParams) (s : EmissionState)
    (rho_veh_per_km v_kmh : Rat) (fan_stage : Int) (iflag : Int)
    (incident_severity heavy_ratio_pct : Rat) : EmissionState :=
  let dt := p.dt_s
  let V := max 1 p.air_volume_m3
  let heavy_factor := 1 + max 0 (min 1 (heavy_ratio_pct / 100)) * 1.4
  let stopgo_factor := 1 + max 0 ((40 - max 0 v_kmh) / 40) * 1.2
  let incident_factor := 1 + max 0 (min 1 incident_severity) * 1.5 * (iflag : Rat)
  let E_proxy_raw := max 0 rho_veh_per_km * emission_per_vehicle p v_kmh *
    heavy_factor * stopgo_factor * incident_factor
  let alpha := min 1 (dt / max 1 p.source_tau_s)
  let source_next := s.co_source_proxy + alpha * (E_proxy_raw - s.co_source_proxy)
  let Q := ventilation_flow p fan_stage
  let co_next := s.co_ppm + dt * ((p.co_scale * source_next / V) - (Q / V) * s.co_ppm)
  let vis_next := s.vis_proxy + dt *
    ((p.vis_beta0 * source_next + p.vis_beta2_incident * (iflag : Rat) * (1 + incident_severity))
      - (p.vis_beta1 * Q) * s.vis_proxy)
  let co_next := max 0 co_next
  let vis_next := max 0 vis_next
  { co_ppm := co_next, vis_proxy := vis_next, co_source_proxy := source_next }

/-- Shared concrete interpretation of the transcendental primitives, used to
instantiate universally quantified theorems at a concrete input. -/
def fns0 : MathFns :=
  { sin := fun _ => 0, exp := fun _ => 0, pow := fun _ _ => 0, pi := 0,
    gauss := fun _ _ _ => 0 }

/-! ## streaming/opcua_mock_server.py — helpers and fan controller -/

/-- Source: `clamp` in `streaming/opcua_mock_server.py`. -/
def clamp (x lo hi : Rat) : Rat := max lo (min hi x)

/-- Source: `jam_index_from_speed` in `streaming/opcua_mock_server.py`. -/
def jam_index_from_speed (speed_kmh freeflow_kmh : Rat) : Rat :=
  if freeflow_kmh ≤ 0 then 0 else clamp (1 - speed_kmh / freeflow_kmh) 0 1

/-- Source: `smoke_index` in `streaming/opcua_mock_server.py`
(with the default `co_alarm_ppm = 200`). -/
def smoke_index (co_ppm vis_pct : Rat) : Rat :=
  let co_term := clamp (co_ppm / 200) 0 1
  let vis_term := clamp (1 - vis_pct / 100) 0 1
  clamp (0.6 * co_term + 0.4 * vis_term) 0 1

/-- Source: `density_to_occ_pct` in `streaming/opcua_mock_server.py`. -/
def density_to_occ_pct (rho_veh_per_km : Rat) : Rat :=
  clamp (rho_veh_per_km / 2.5) 0 100

/-- Source: `vis_proxy_to_pct` in `streaming/opcua_mock_server.py`. -/
def vis_proxy_to_pct (vis_proxy_0_1 : Rat) : Rat :=
  clamp ((1 - vis_proxy_0_1) * 100) 0 100

/-- Source: `add_noise` in `streaming/opcua_mock_server.py`.  The generator
argument `rng` is modelled by the scenario seed plus the number of Gaussian
draws made so far (`k`); the draw itself is `fns.gauss seed k sigma`.
Returns the noisy value and the advanced draw counter. -/
def add_noise (fns : MathFns) (seed : Int) (k : Nat) (x sigma : Rat)
    (lo hi : Option Rat) : Rat × Nat :=
  let y := x + fns.gauss seed k sigma
  let y := match lo with | some l => max l y | none => y
  let y := match hi with | some h => min h y | none => y
  (y, k + 1)

/-- Up-thresholds `up = [25, 40, 65]` of `fan_stage_with_hysteresis`,
indexed by the current stage (meaningful for stages 0, 1, 2, the only
indices the source reads when `stage < 3`). -/
def upThresh (i : Int) : Rat := if i = 0 then 25 else if i = 1 then 40 else 65

/-- Down-thresholds `down = [18, 32, 52]` of `fan_stage_with_hysteresis`,
indexed by `stage - 1` (meaningful for indices 0, 1, 2, the only indices the
source reads when `0 < stage ≤ 3`). -/
def downThresh (i : Int) : Rat := if i = 0 then 18 else if i = 1 then 32 else 52

/-- The visibility bump of `fan_stage_with_hysteresis`: low visibility adds
CO-equivalent pressure (18 below 65 %, 8 below 80 %). -/
def co_effective (co_ppm vis_pct : Rat) : Rat :=
  if vis_pct < 65 then co_ppm + 18
  else if vis_pct < 80 then co_ppm + 8
  else co_ppm

/-- The single up/down transition of `fan_stage_with_hysteresis`, before the
final clamp. -/
def fan_transition (stage : Int) (co : Rat) : Int :=
  if stage < 3 ∧ upThresh stage ≤ co then stage + 1
  else if 0 < stage ∧ co < downThresh (stage - 1) then stage - 1
  else stage

/-- Source: `fan_stage_with_hysteresis` in `streaming/opcua_mock_server.py`,
restricted to the stages on which the source's threshold-list indexing does
not raise.  The full translation, with the `IndexError` path, is
`fan_stage_with_hysteresis_checked` below; the two agree on every non-raising
previous stage (−3..3) by `fan_checked_agrees_on_domain`, and the claims about
the controller itself (C7, C8) quantify over stages 0..3, where the threshold
tables coincide with the source lists index-for-index. -/
def fan_stage_with_hysteresis (prev_stage : Int) (co_ppm vis_pct : Rat) : Int :=
  max 0 (min 3 (fan_transition prev_stage (co_effective co_ppm vis_pct)))

/-- Python `xs[i]` on a 3-element list `[a, b, c]`: a negative index wraps
once (`xs[-1]` is the last element), and any index outside −3..2 raises
`IndexError`, modelled as `none`. -/
def pylist_get3 (a b c : Rat) (i : Int) : Option Rat :=
  if i = 0 ∨ i = -3 then some a
  else if i = 1 ∨ i = -2 then some b
  else if i = 2 ∨ i = -1 then some c
  else none

/-- Source: `fan_stage_with_hysteresis` in `streaming/opcua_mock_server.py`,
translated in full, including the error path: `up[stage]` and
`down[stage - 1]` are Python list reads on the 3-element threshold lists, so
a previous stage ≥ 4 or ≤ −4 raises `IndexError` (`none`), exactly as the
source's `if stage < 3 and co >= up[stage]` / `elif stage > 0 and
co < down[stage - 1]` short-circuiting reaches the reads. -/
def fan_stage_with_hysteresis_checked (prev_stage : Int) (co_ppm vis_pct : Rat) :
    Option Int :=
  let co := co_effective co_ppm vis_pct
  let stage := prev_stage
  if stage < 3 then
    match pylist_get3 25 40 65 stage with
    | none => none
    | some up =>
      if up ≤ co then some (max 0 (min 3 (stage + 1)))
      else
        if 0 < stage then
          match pylist_get3 18 32 52 (stage - 1) with
          | none => none
          | some dn =>
            if co < dn then some (max 0 (min 3 (stage - 1)))
            else some (max 0 (min 3 stage))
        else some (max 0 (min 3 stage))
  else
    if 0 < stage then
      match pylist_get3 18 32 52 (stage - 1) with
      | none => none
      | some dn =>
        if co < dn then some (max 0 (min 3 (stage - 1)))
        else some (max 0 (min 3 stage))
    else some (max 0 (min 3 stage))

/-! ## core/constraint_layer/sti_rules.py — data structures and helpers -/

/-- A tag snapshot's mapping from tag identifier to numeric value, in
insertion order (Python `Dict[str, float]`). -/
abbrev Tags := List (String × Rat)

/-- Source: dataclass `RuleTrigger` in `core/constraint_layer/sti_rules.py`.
The heterogeneous `evidence` / `changed` dicts hold integers respectively
(before, after) integer pairs at every call site, and are modelled so. -/
structure RuleTrigger where
  rule_id : String
  severity : String
  message : String
  evidence : List (String × Int)
  changed : List (String × Int × Int)
deriving DecidableEq

/-- Source: dataclass `STIConstraints` in `core/constraint_layer/sti_rules.py`,
same defaults. -/
structure STIConstraints where
  max_fan_stage : Int := 3
  max_fan_step_per_s : Int := 1
  min_vms_speed_kmh : Int := 60
  max_vms_speed_kmh : Int := 100
  incident_no_speed_increase : Bool := true
  incident_min_fan_stage : Int := 0
deriving DecidableEq

/-- A proposed or filtered recommendation dict `{"fan_stage": int,
"vms_speed": int}`; a `none` field models an absent key. -/
structure Recommendation where
  fan_stage : Option Int := none
  vms_speed : Option Int := none
deriving DecidableEq

/-- The `audit_info` dict returned by `filter_recommendation`:
`{"violations": [...], "changed": {...}, "triggers": [...]}`. -/
structure Audit where
  violations : List String
  changed : List (String × Int × Int)
  triggers : List RuleTrigger
deriving DecidableEq

/-- Source: `_get_float` in `core/constraint_layer/sti_rules.py`
(`tags.get(key, default)` followed by `float(...)`). -/
def get_float (tags : Tags) (key : String) (default : Rat) : Rat :=
  (tags.lookup key).getD default

/-- Source: `_any_true` in `core/constraint_layer/sti_rules.py`. -/
def any_true (tags : Tags) (keys : List String) (threshold : Rat) : Bool :=
  keys.any fun k => threshold ≤ get_float tags k 0

/-- The derived higher-level flags of `derive_state`. -/
structure DerivedState where
  incident_active : Bool
  jam_active : Bool
  co_warn : Bool
  co_alarm : Bool
  vis_alarm : Bool

/-- Source: `derive_state` in `core/constraint_layer/sti_rules.py`. -/
def derive_state (current_tags : Tags) : DerivedState :=
  { incident_active :=
      any_true current_tags ["Z2.EVENT.IncidentFlag", "Z3.EVT.Incident.Active"] 0.5
    jam_active :=
      any_true current_tags ["Z3.EVT.Jam.Active", "Z3.TRAF.STATE.Tunnel.JamDetected"] 0.5
    co_warn := any_true current_tags ["Z3.ENV.ALARM.CO.Warn"] 0.5
    co_alarm := any_true current_tags ["Z3.ENV.ALARM.CO.Alarm"] 0.5
    vis_alarm := any_true current_tags ["Z3.ENV.ALARM.Visibility.Alarm"] 0.5 }

/-- Python `int(...)` applied to a float: truncation toward zero. -/
def pyint (q : Rat) : Int := if q < 0 then ⌈q⌉ else ⌊q⌋

/-- The current displayed speed limit used by rule R1 of
`filter_recommendation`: `Z2.VMS.SpeedLimit` if present, else
`Z1.VMS.SIGN.V01.SpeedSet` if present, else 80. -/
def current_speed_limit (tags : Tags) : Int :=
  if (tags.lookup "Z2.VMS.SpeedLimit").isSome then
    pyint (get_float tags "Z2.VMS.SpeedLimit" 80)
  else if (tags.lookup "Z1.VMS.SIGN.V01.SpeedSet").isSome then
    pyint (get_float tags "Z1.VMS.SIGN.V01.SpeedSet" 80)
  else 80

/-- Intermediate state of the rule pipeline of `filter_recommendation`: the
working copy `out` of the recommendation plus the audit accumulators. -/
structure PipeState where
  out : Recommendation
  violations : List String
  changed : List (String × Int × Int)
  triggers : List RuleTrigger
deriving DecidableEq

/-- Rule R1 of `filter_recommendation` (incident => no speed increase). -/
def rule_r1 (c : STIConstraints) (tags : Tags) (incident : Bool)
    (st : PipeState) : PipeState :=
  match st.out.vms_speed with
  | none => st
  | some proposed =>
    if incident ∧ c.incident_no_speed_increase then
      let current_limit := current_speed_limit tags
      if current_limit < proposed then
        { out := { st.out with vms_speed := some current_limit }
          violations := st.violations ++ ["INCIDENT_NO_SPEED_INCREASE"]
          changed := st.changed ++ [("vms_speed_incident", proposed, current_limit)]
          triggers := st.triggers ++
            [{ rule_id := "R_INCIDENT_NO_SPEED_INCREASE"
               severity := "critical"
               message := "During incident: speed increase is not allowed."
               evidence := [("proposed_vms_speed", proposed),
                            ("current_speed_limit", current_limit)]
               changed := [("vms_speed", proposed, current_limit)] }] }
      else st
    else st

/-- Rule R2 of `filter_recommendation` (clamp VMS speed into the band). -/
def rule_r2 (c : STIConstraints) (st : PipeState) : PipeState :=
  match st.out.vms_speed with
  | none => st
  | some v =>
    let v2 := max c.min_vms_speed_kmh (min c.max_vms_speed_kmh v)
    if v2 ≠ v then
      { out := { st.out with vms_speed := some v2 }
        violations := st.violations ++ ["VMS_CLAMP"]
        changed := st.changed ++ [("vms_speed", v, v2)]
        triggers := st.triggers ++
          [{ rule_id := "R_VMS_CLAMP"
             severity := "high"
             message := "VMS speed setpoint clamped to allowed band."
             evidence := [("proposed_vms_speed", v), ("min", c.min_vms_speed_kmh),
                          ("max", c.max_vms_speed_kmh)]
             changed := [("vms_speed", v, v2)] }] }
    else st

/-- Second half of rule R3 of `filter_recommendation`: the fan-stage ceiling
clamp `f2 = max(0, min(max_fan_stage, f))`, applied to the working stage `f`
(the source reassigns `out["fan_stage"] = f2` also in the unchanged case). -/
def rule_r3_clamp (c : STIConstraints) (f : Int) (st : PipeState) : PipeState :=
  let f2 := max 0 (min c.max_fan_stage f)
  if f2 ≠ f then
    { out := { st.out with fan_stage := some f2 }
      violations := st.violations ++ ["FAN_CLAMP"]
      changed := st.changed ++ [("fan_stage", f, f2)]
      triggers := st.triggers ++
        [{ rule_id := "R_FAN_CLAMP"
           severity := "high"
           message := "Fan stage clamped to allowed maximum."
           evidence := [("proposed_fan_stage", f), ("max_fan_stage", c.max_fan_stage)]
           changed := [("fan_stage", f, f2)] }] }
  else { st with out := { st.out with fan_stage := some f2 } }

/-- Rule R3 of `filter_recommendation`: the optional incident minimum fan
stage (first half of the source block), followed by the ceiling clamp
`rule_r3_clamp` on the resulting working stage. -/
def rule_r3 (c : STIConstraints) (incident : Bool) (st : PipeState) : PipeState :=
  match st.out.fan_stage with
  | none => st
  | some f0 =>
    if incident ∧ 0 < c.incident_min_fan_stage ∧ f0 < c.incident_min_fan_stage then
      rule_r3_clamp c c.incident_min_fan_stage
        { st with
            violations := st.violations ++ ["INCIDENT_MIN_FAN_STAGE"]
            changed := st.changed ++ [("fan_stage_incident_min", f0, c.incident_min_fan_stage)]
            triggers := st.triggers ++
              [{ rule_id := "R_INCIDENT_MIN_FAN_STAGE"
                 severity := "high"
                 message := "During incident: minimum fan stage enforced."
                 evidence := [("proposed_fan_stage", f0),
                              ("incident_min_fan_stage", c.incident_min_fan_stage)]
                 changed := [("fan_stage", f0, c.incident_min_fan_stage)] }] }
    else rule_r3_clamp c f0 st

/-- Rule R4 of `filter_recommendation` (fan ramp-rate limit against the
previous filtered recommendation).  In the source this block is nested inside
the `"fan_stage" in out` branch, and R3 always keeps that key present, so
guarding on the key here is equivalent. -/
def rule_r4 (c : STIConstraints) (prev_rec : Option Recommendation)
    (st : PipeState) : PipeState :=
  match st.out.fan_stage with
  | none => st
  | some f =>
    match prev_rec with
    | none => st
    | some pr =>
      match pr.fan_stage with
      | none => st
      | some prev_f =>
        if c.max_fan_step_per_s < |f - prev_f| then
          let limited := prev_f + c.max_fan_step_per_s * (if prev_f < f then 1 else -1)
          { out := { st.out with fan_stage := some limited }
            violations := st.violations ++ ["FAN_RAMP_RATE"]
            changed := st.changed ++ [("fan_stage_ramp", f, limited)]
            triggers := st.triggers ++
              [{ rule_id := "R_FAN_RAMP_RATE"
                 severity := "warning"
                 message := "Fan ramp rate limited (stage/s)."
                 evidence := [("prev_fan_stage", prev_f),
                              ("proposed_after_clamp", prev_f),
                              ("max_step_per_s", c.max_fan_step_per_s)]
                 changed := [("fan_stage", f, limited)] }] }
        else st

/-- Source: `filter_recommendation` in `core/constraint_layer/sti_rules.py`:
the ordered pipeline R1; R2; R3; R4 over a working copy of the proposed
recommendation, returning the filtered recommendation and the audit dict. -/
def filter_recommendation (rec : Recommendation) (current_tags : Tags)
    (prev_rec : Option Recommendation) (c : STIConstraints) :
    Recommendation × Audit :=
  let incident := (derive_state current_tags).incident_active
  let st : PipeState := { out := rec, violations := [], changed := [], triggers := [] }
  let st := rule_r1 c current_tags incident st
  let st := rule_r2 c st
  let st := rule_r3 c incident st
  let st := rule_r4 c prev_rec st
  (st.out, { violations := st.violations, changed := st.changed, triggers := st.triggers })

/-- Source: dataclass `STIEngine` in `core/constraint_layer/sti_rules.py`. -/
structure STIEngine where
  constraints : STIConstraints := {}
  prev_filtered : Option Recommendation := none

/-- Source: `STIEngine.step`: run `filter_recommendation` against the
remembered previous filtered recommendation, then remember the new filtered
output.  Returns (filtered, audit, updated engine). -/
def STIEngine.step (e : STIEngine) (rec : Recommendation) (current_tags : Tags) :
    Recommendation × Audit × STIEngine :=
  let fa := filter_recommendation rec current_tags e.prev_filtered e.constraints
  (fa.1, fa.2, { constraints := e.constraints, prev_filtered := some fa.1 })

/-- The pipeline state after all four rules of `filter_recommendation`. -/
def sti_pipeline (rec : Recommendation) (current_tags : Tags)
    (prev_rec : Option Recommendation) (c : STIConstraints) : PipeState :=
  rule_r4 c prev_rec
    (rule_r3 c (derive_state current_tags).incident_active
      (rule_r2 c
        (rule_r1 c current_tags (derive_state current_tags).incident_active
          ⟨rec, [], [], []⟩)))

/-! ## streaming/opcua_mock_server.py — the stream generator -/

/-- Source: dataclass `TagSnapshot` in `streaming/opcua_mock_server.py`; the
timestamp `t0 + timedelta(seconds=t_s)` is modelled in whole seconds. -/
structure TagSnapshot where
  timestamp : Int
  tags : Tags
  quality : String
  scenario_id : String

/-- Loop state of `generate_stream` between two seconds: the traffic and
emission states, the previous incident flag (onset/offset edge detection),
the dynamic fan stage, and the number of Gaussian draws consumed so far by
the seeded noise generator. -/
structure GenState where
  traffic : TrafficState
  emis : EmissionState
  prev_inc : Bool
  fan_stage_dyn : Int
  rng_k : Nat

/-- One iteration of the `generate_stream` loop (`for t_s in range(...)` body
in `streaming/opcua_mock_server.py`): evaluate the event schedule, run the
fan controller on the previous emission reading, advance the traffic and
emission models, and synthesize the tag snapshot, threading the noise
counter through the seven `add_noise` calls in source order.  The two
exceptions this body can raise from its configuration — `ZeroDivisionError`
in `inflow` (zero demand period) and `IndexError` in the fan controller
(previous stage outside −3..3) — are propagated as `none`, in the source's
evaluation order, and abort the iteration before its snapshot is produced.
`Z3.EVT.Incident.LocationSegment` parses the digits of the segment name with
`float(int(segment[1:]))`; the parse is modelled totally (`getD 0`), which is
faithful exactly at parsable segment names such as the source's default
`S01`, the segment at which every run-level theorem below is stated (an
unparsable name raises `ValueError` in the source). -/
def gen_step (fns : MathFns) (sc : Scenario) (t0 : Int)
    (traffic_p : TrafficParams) (emis_p : EmissionParams) (segment : String)
    (t_s : Int) (g : GenState) : Option (TagSnapshot × GenState) :=
  let ts := t0 + t_s
  match inflow fns sc t_s with
  | none => none
  | some q_in_veh_per_h =>
  let q_in_veh_per_min := q_in_veh_per_h / 60
  let inc : Bool := incident_flag sc t_s != 0
  let inc_type := incident_type_code sc t_s
  let weather_active : Bool := weather_flag sc t_s != 0
  let weather_type := weather_type_code sc t_s
  let cap := capacity_factor sc t_s
  let vms_speed_kmh_base := (controls sc t_s).1
  let heavy_pct := 10 + 8 * max 0 (min 1 (g.traffic.rho_veh_per_km / 120))
  let heavy_pct :=
    if inc ∧ (sc.incident_type = "wrong_way_driver" ∨ sc.incident_type = "stalled_vehicle"
        ∨ sc.incident_type = "vehicle_fire") then heavy_pct + 4 else heavy_pct
  let queue_penalty := 10 * g.traffic.queue_index
  let vms_speed_kmh := max 40 (vms_speed_kmh_base - queue_penalty)
  let vis_prev := vis_proxy_to_pct g.emis.vis_proxy
  match fan_stage_with_hysteresis_checked g.fan_stage_dyn g.emis.co_ppm vis_prev with
  | none => none
  | some fan_next =>
  let traffic := step_traffic fns traffic_p g.traffic q_in_veh_per_h vms_speed_kmh cap
  let emis := step_emissions emis_p g.emis traffic.rho_veh_per_km traffic.v_kmh
    fan_next (if inc then 1 else 0) sc.incident_severity heavy_pct
  let vis_pct := vis_proxy_to_pct emis.vis_proxy
  let vis_pct :=
    if weather_active then clamp (vis_pct - sc.weather_visibility_drop_pct) 0 100
    else vis_pct
  let occ_pct := density_to_occ_pct traffic.rho_veh_per_km
  let n1 := add_noise fns sc.seed g.rng_k q_in_veh_per_min 0.8 (some 0) none
  let n2 := add_noise fns sc.seed n1.2 traffic.v_kmh 1.5 (some 0) (some 140)
  let n3 := add_noise fns sc.seed n2.2 occ_pct 1.0 (some 0) (some 100)
  let n4 := add_noise fns sc.seed n3.2 heavy_pct 0.6 (some 0) (some 100)
  let n5 := add_noise fns sc.seed n4.2 emis.co_ppm 0.8 (some 0) none
  let n6 := add_noise fns sc.seed n5.2 vis_pct 0.8 (some 0) (some 100)
  let n7 := add_noise fns sc.seed n6.2 18 0.2 (some (-20)) (some 80)
  let onset := inc && !g.prev_inc
  let offset := !inc && g.prev_inc
  let tags : Tags :=
    [("Z0.SIM.Seed", (sc.seed : Rat)),
     ("Z1.TRAF.DET." ++ segment ++ ".Flow", n1.1),
     ("Z1.TRAF.DET." ++ segment ++ ".Speed", n2.1),
     ("Z1.TRAF.DET." ++ segment ++ ".Occ", n3.1),
     ("Z1.TRAF.DET." ++ segment ++ ".HeavyRatio", n4.1),
     ("Z1.ENV.CO." ++ segment ++ ".Value", n5.1),
     ("Z1.ENV.VIS." ++ segment ++ ".Value", n6.1),
     ("Z1.ENV.TEMP." ++ segment ++ ".Value", n7.1),
     ("Z1.VENT.FAN.F01.Stage", (fan_next : Rat)),
     ("Z1.VENT.FAN.F01.State", if 0 < fan_next then 1 else 0),
     ("Z1.VENT.FAN.F01.Direction", 0),
     ("Z1.VENT.FAN.F01.Fault", 0),
     ("Z1.VMS.SIGN.V01.SpeedSet", vms_speed_kmh),
     ("Z1.VMS.SIGN.V01.MessageCode", 0),
     ("Z1.VMS.SIGN.V01.Fault", 0),
     ("Z2.TRAF.AGG." ++ segment ++ ".Flow_10s", q_in_veh_per_min),
     ("Z2.TRAF.AGG." ++ segment ++ ".Speed_10s", traffic.v_kmh),
     ("Z2.TRAF.AGG." ++ segment ++ ".Density_10s", traffic.rho_veh_per_km),
     ("Z2.TRAF.AGG." ++ segment ++ ".JamIndex",
       jam_index_from_speed traffic.v_kmh 100),
     ("Z2.ENV.AGG." ++ segment ++ ".CO_10s", emis.co_ppm),
     ("Z2.ENV.AGG." ++ segment ++ ".VIS_10s", vis_pct),
     ("Z2.ENV.AGG." ++ segment ++ ".CO_Rate", 0),
     ("Z2.ENV.AGG." ++ segment ++ ".VIS_Rate", 0),
     ("Z2.ENV.AGG." ++ segment ++ ".SmokeIndex", smoke_index emis.co_ppm vis_pct),
     ("Z3.EVT.Incident.Active", if inc then 1 else 0),
     ("Z3.EVT.Incident.Onset", if onset then 1 else 0),
     ("Z3.EVT.Incident.Offset", if offset then 1 else 0),
     ("Z3.EVT.Incident.Type", (inc_type : Rat)),
     ("Z3.EVT.Incident.Severity", if inc then sc.incident_severity else 0),
     ("Z3.EVT.Incident.LocationSegment",
       if segment.startsWith "S" then ((((segment.drop 1).toInt?).getD 0 : Int) : Rat)
       else 1),
     ("Z3.EVT.Weather.Active", if weather_active then 1 else 0),
     ("Z3.EVT.Weather.Type", (weather_type : Rat))]
  some (⟨ts, tags, "GOOD", sc.scenario_id⟩, ⟨traffic, emis, inc, fan_next, n7.2⟩)

/-- The remaining `n` iterations of the `generate_stream` loop starting at
second `t_s` in loop state `g`; `none` once an iteration raises, discarding
the whole run (in the source the exception propagates out of the generator,
and since the two raising operations depend only on the scenario's period and
on a fan stage that every completed iteration leaves inside 0..3, a raise can
only happen at the very first iteration, before any snapshot is yielded). -/
def gen_from (fns : MathFns) (sc : Scenario) (t0 : Int)
    (traffic_p : TrafficParams) (emis_p : EmissionParams) (segment : String) :
    Nat → Int → GenState → Option (List TagSnapshot)
  | 0, _, _ => some []
  | Nat.succ n, t_s, g =>
    match gen_step fns sc t0 traffic_p emis_p segment t_s g with
    | none => none
    | some r =>
      match gen_from fns sc t0 traffic_p emis_p segment n (t_s + 1) r.2 with
      | none => none
      | some rest => some (r.1 :: rest)

/-- Source: `generate_stream` in `streaming/opcua_mock_server.py`: one
snapshot per second for `duration_s` seconds (`range` of a nonpositive
duration is empty), starting from the fixed initial states
`TrafficState(25, 95)`, `EmissionState(10, 0.02)` and the scenario's
configured fan stage, with the seeded noise counter at zero.  The lazy
Python generator is modelled as the finite list of the snapshots it yields,
or `none` when the first iteration raises (`ZeroDivisionError` for a zero
demand period, `IndexError` for an initial fan stage outside −3..3), in
which case the source generator yields no snapshot at all. -/
def generate_stream (fns : MathFns) (sc : Scenario) (t0 : Int)
    (traffic_p : TrafficParams) (emis_p : EmissionParams) (segment : String) :
    Option (List TagSnapshot) :=
  gen_from fns sc t0 traffic_p emis_p segment sc.duration_s.toNat 0
    { traffic := { rho_veh_per_km := 25, v_kmh := 95, queue_index := 0 }
      emis := { co_ppm := 10, vis_proxy := 0.02, co_source_proxy := 0 }
      prev_inc := false
      fan_stage_dyn := sc.fan_stage
      rng_k := 0 }

/-! ## Claim C9: incident windowing -/

/-- C9: `incident_flag` returns 1 exactly when
`incident_start_s ≤ t < incident_end_s` and 0 otherwise, and for the window
2400..3600 it evaluates to 0, 1, 1, 0 at t = 2399, 2400, 3599, 3600. -/
theorem C9_incident_windowing :
    (∀ (sc : Scenario) (t : Int),
      (incident_flag sc t = 1 ↔ (sc.incident_start_s ≤ t ∧ t < sc.incident_end_s))
      ∧ (incident_flag sc t = 0 ↔ ¬ (sc.incident_start_s ≤ t ∧ t < sc.incident_end_s)))
    ∧ (incident_flag { incident_start_s := 2400, incident_end_s := 3600 } 2399 = 0
      ∧ incident_flag { incident_start_s := 2400, incident_end_s := 3600 } 2400 = 1
      ∧ incident_flag { incident_start_s := 2400, incident_end_s := 3600 } 3599 = 1
      ∧ incident_flag { incident_start_s := 2400, incident_end_s := 3600 } 3600 = 0) := by
  refine ⟨fun sc t => ?_, by decide, by decide, by decide, by decide⟩
  unfold incident_flag
  constructor
  · constructor
    · intro h
      by_contra hc
      simp [hc] at h
    · intro h
      simp [h]
  · constructor
    · intro h
      by_contra hc
      simp [hc] at h
    · intro h
      simp [h]

/-! ## Claim C10: the two `step_traffic` implementations agree -/

/-- C10: the `step_traffic` of `sim/traffic_model.py` and the state component
of the `step_traffic` of `core/sim/traffic_model.py` compute the same next
`TrafficState` for every parameter set, state and inputs. -/
theorem C10_step_traffic_agree (fns : MathFns) (p : TrafficParams)
    (s : TrafficState) (q_in vms cf : Rat) :
    step_traffic fns p s q_in vms cf = (coresim.step_traffic fns p s q_in vms cf).1 := rfl

/-! ## Claim C2: bounds invariant of the step functions -/

/-- C2: starting from a `TrafficState` within its documented bounds, the state
returned by `step_traffic` is again within the bounds
`0 ≤ rho ≤ rho_max`, `0 ≤ v ≤ v_free`, `0 ≤ queue_index ≤ 1`; and the
`EmissionState` returned by `step_emissions` satisfies `co_ppm ≥ 0` and
`vis_proxy ≥ 0`, for all finite inputs, by construction (the final clamps of
each step function). -/
theorem C2_step_bounds (fns : MathFns) (p : TrafficParams) (s : TrafficState)
    (q_in vms cf : Rat)
    (ep : EmissionParams) (es : EmissionState)
    (rho v : Rat) (fan iflag : Int) (sev heavy : Rat)
    (hrho0 : 0 ≤ s.rho_veh_per_km) (hrho1 : s.rho_veh_per_km ≤ p.rho_max_veh_per_km)
    (hv0 : 0 ≤ s.v_kmh) (hv1 : s.v_kmh ≤ p.v_free_kmh)
    (hq0 : 0 ≤ s.queue_index) (hq1 : s.queue_index ≤ 1)
    (hco : 0 ≤ es.co_ppm) (hvis : 0 ≤ es.vis_proxy) :
    (0 ≤ (step_traffic fns p s q_in vms cf).rho_veh_per_km
      ∧ (step_traffic fns p s q_in vms cf).rho_veh_per_km ≤ p.rho_max_veh_per_km
      ∧ 0 ≤ (step_traffic fns p s q_in vms cf).v_kmh
      ∧ (step_traffic fns p s q_in vms cf).v_kmh ≤ p.v_free_kmh
      ∧ 0 ≤ (step_traffic fns p s q_in vms cf).queue_index
      ∧ (step_traffic fns p s q_in vms cf).queue_index ≤ 1)
    ∧ (0 ≤ (step_emissions ep es rho v fan iflag sev heavy).co_ppm
      ∧ 0 ≤ (step_emissions ep es rho v fan iflag sev heavy).vis_proxy) := by
  have hM : (0 : Rat) ≤ p.rho_max_veh_per_km := le_trans hrho0 hrho1
  have hV : (0 : Rat) ≤ p.v_free_kmh := le_trans hv0 hv1
  refine ⟨⟨?_, ?_, ?_, ?_, ?_, ?_⟩, ?_, ?_⟩
  · exact le_max_left _ _
  · exact max_le hM (min_le_left _ _)
  · exact le_max_left _ _
  · exact max_le hV (min_le_left _ _)
  · exact le_min (by norm_num) (le_max_left _ _)
  · exact min_le_left _ _
  · exact le_max_left _ _
  · exact le_max_left _ _

/-- Witness for C2 at concrete inputs: the default initial traffic state
(rho 25, v 95) and emission state (co 10, vis 0.02) of `generate_stream`. -/
theorem C2_step_bounds_witness :
    (0 ≤ (step_traffic fns0 {} ⟨25, 95, 0⟩ 2200 80 1).rho_veh_per_km
      ∧ (step_traffic fns0 {} ⟨25, 95, 0⟩ 2200 80 1).rho_veh_per_km ≤
          TrafficParams.rho_max_veh_per_km {}
      ∧ 0 ≤ (step_traffic fns0 {} ⟨25, 95, 0⟩ 2200 80 1).v_kmh
      ∧ (step_traffic fns0 {} ⟨25, 95, 0⟩ 2200 80 1).v_kmh ≤
          TrafficParams.v_free_kmh {}
      ∧ 0 ≤ (step_traffic fns0 {} ⟨25, 95, 0⟩ 2200 80 1).queue_index
      ∧ (step_traffic fns0 {} ⟨25, 95, 0⟩ 2200 80 1).queue_index ≤ 1)
    ∧ (0 ≤ (step_emissions {} ⟨10, 0.02, 0⟩ 25 95 2 0 0.6 12).co_ppm
      ∧ 0 ≤ (step_emissions {} ⟨10, 0.02, 0⟩ 25 95 2 0 0.6 12).vis_proxy) :=
  C2_step_bounds fns0 {} ⟨25, 95, 0⟩ 2200 80 1 {} ⟨10, 0.02, 0⟩ 25 95 2 0 0.6 12
    (by norm_num) (by norm_num) (by norm_num) (by norm_num)
    (by norm_num) (by norm_num) (by norm_num) (by norm_num)

/-! ## Claim C8: one transition per evaluation, result in [0, 3] -/

/-- C8: from any previous stage in {0,1,2,3} and any CO / visibility reading,
`fan_stage_with_hysteresis` returns a stage in [0, 3] differing from the
previous stage by at most 1. -/
theorem C8_fan_stage_step (prev : Int)
    (hp : prev = 0 ∨ prev = 1 ∨ prev = 2 ∨ prev = 3) (co vis : Rat) :
    0 ≤ fan_stage_with_hysteresis prev co vis
    ∧ fan_stage_with_hysteresis prev co vis ≤ 3
    ∧ |fan_stage_with_hysteresis prev co vis - prev| ≤ 1 := by
  unfold fan_stage_with_hysteresis fan_transition upThresh downThresh
  rcases hp with h | h | h | h <;> subst h <;> split_ifs <;>
    refine ⟨?_, ?_, ?_⟩ <;> decide

/-- Witness for C8 at a concrete input (previous stage 1, CO 50, vis 100). -/
theorem C8_fan_stage_step_witness :
    0 ≤ fan_stage_with_hysteresis 1 50 100
    ∧ fan_stage_with_hysteresis 1 50 100 ≤ 3
    ∧ |fan_stage_with_hysteresis 1 50 100 - 1| ≤ 1 :=
  C8_fan_stage_step 1 (by decide) 50 100

/-! ## Claim C7: hysteresis non-chatter -/

/-- One step of the C7 invariant: with a CO reading of 24 or 26 and any
visibility, a stage in [1, 3] stays in [1, 3] (the effective CO is at least
24, strictly above the stage-1 down-threshold 18, so the controller never
steps below stage 1). -/
theorem fan_step_stays_ge_one (s : Int) (co vis : Rat)
    (hs1 : 1 ≤ s) (hs3 : s ≤ 3) (hco : co = 24 ∨ co = 26) :
    1 ≤ fan_stage_with_hysteresis s co vis
    ∧ fan_stage_with_hysteresis s co vis ≤ 3 := by
  have hce : (24 : Rat) ≤ co_effective co vis := by
    unfold co_effective
    rcases hco with h | h <;> subst h <;> split_ifs <;> norm_num
  have htr : 1 ≤ fan_transition s (co_effective co vis) := by
    unfold fan_transition
    split_ifs with h1 h2
    · omega
    · rcases h2 with ⟨hs0, hdown⟩
      rcases (by omega : s = 1 ∨ 2 ≤ s) with h | h
      · exfalso
        subst h
        simp only [downThresh] at hdown
        norm_num at hdown
        linarith
      · omega
    · omega
  unfold fan_stage_with_hysteresis
  constructor
  · exact le_trans (le_min (by norm_num) htr) (le_max_right 0 _)
  · exact max_le (by norm_num) (min_le_left _ _)

/-- C7: feeding the fan controller any sequence of CO readings that are each
24 or 26 (straddling the up-threshold 25 but above the down-threshold 18),
with arbitrary visibility readings, never lets the stage drop below 1 once it
is at least 1: every intermediate fold state stays in [1, 3]. -/
theorem C7_hysteresis_no_chatter (readings : List (Rat × Rat))
    (hco : ∀ r ∈ readings, r.1 = 24 ∨ r.1 = 26)
    (s : Int) (hs1 : 1 ≤ s) (hs3 : s ≤ 3) :
    1 ≤ readings.foldl (fun st r => fan_stage_with_hysteresis st r.1 r.2) s
    ∧ readings.foldl (fun st r => fan_stage_with_hysteresis st r.1 r.2) s ≤ 3 := by
  induction readings generalizing s with
  | nil => exact ⟨hs1, hs3⟩
  | cons r rs ih =>
    have hr := hco r (List.mem_cons_self r rs)
    have hstep := fan_step_stays_ge_one s r.1 r.2 hs1 hs3 hr
    simpa [List.foldl] using
      ih (fun x hx => hco x (List.mem_cons_of_mem r hx)) _ hstep.1 hstep.2

/-- Witness for C7 on the concrete oscillating trace [(24, 100), (26, 100),
(24, 100)] starting from stage 1. -/
theorem C7_hysteresis_no_chatter_witness :
    1 ≤ List.foldl (fun st r => fan_stage_with_hysteresis st r.1 r.2) 1
          [((24 : Rat), (100 : Rat)), (26, 100), (24, 100)]
    ∧ List.foldl (fun st r => fan_stage_with_hysteresis st r.1 r.2) 1
          [((24 : Rat), (100 : Rat)), (26, 100), (24, 100)] ≤ 3 :=
  C7_hysteresis_no_chatter [((24 : Rat), (100 : Rat)), (26, 100), (24, 100)]
    (by decide) 1 (by decide) (by decide)

/-! ## Rule-level lemmas for the constraint pipeline -/

/-- R1 on a missing vms key is the identity. -/
theorem rule_r1_none (c : STIConstraints) (tags : Tags) (inc : Bool)
    (fo : Option Int) (vio : List String) (ch : List (String × Int × Int))
    (tr : List RuleTrigger) :
    rule_r1 c tags inc ⟨⟨fo, none⟩, vio, ch, tr⟩ = ⟨⟨fo, none⟩, vio, ch, tr⟩ := rfl

/-- Unfolding of R1 on a present vms value, in constructor form. -/
theorem rule_r1_some (c : STIConstraints) (tags : Tags) (inc : Bool)
    (fo : Option Int) (p : Int) (vio : List String)
    (ch : List (String × Int × Int)) (tr : List RuleTrigger) :
    rule_r1 c tags inc ⟨⟨fo, some p⟩, vio, ch, tr⟩ =
      if inc ∧ c.incident_no_speed_increase then
        if current_speed_limit tags < p then
          { out := ⟨fo, some (current_speed_limit tags)⟩
            violations := vio ++ ["INCIDENT_NO_SPEED_INCREASE"]
            changed := ch ++ [("vms_speed_incident", p, current_speed_limit tags)]
            triggers := tr ++
              [{ rule_id := "R_INCIDENT_NO_SPEED_INCREASE"
                 severity := "critical"
                 message := "During incident: speed increase is not allowed."
                 evidence := [("proposed_vms_speed", p),
                              ("current_speed_limit", current_speed_limit tags)]
                 changed := [("vms_speed", p, current_speed_limit tags)] }] }
        else ⟨⟨fo, some p⟩, vio, ch, tr⟩
      else ⟨⟨fo, some p⟩, vio, ch, tr⟩ := rfl

/-- Unfolding of R2 on a present vms value, in constructor form. -/
theorem rule_r2_some (c : STIConstraints) (fo : Option Int) (v : Int)
    (vio : List String) (ch : List (String × Int × Int)) (tr : List RuleTrigger) :
    rule_r2 c ⟨⟨fo, some v⟩, vio, ch, tr⟩ =
      if max c.min_vms_speed_kmh (min c.max_vms_speed_kmh v) ≠ v then
        { out := ⟨fo, some (max c.min_vms_speed_kmh (min c.max_vms_speed_kmh v))⟩
          violations := vio ++ ["VMS_CLAMP"]
          changed := ch ++ [("vms_speed", v, max c.min_vms_speed_kmh (min c.max_vms_speed_kmh v))]
          triggers := tr ++
            [{ rule_id := "R_VMS_CLAMP"
               severity := "high"
               message := "VMS speed setpoint clamped to allowed band."
               evidence := [("proposed_vms_speed", v), ("min", c.min_vms_speed_kmh),
                            ("max", c.max_vms_speed_kmh)]
               changed := [("vms_speed", v, max c.min_vms_speed_kmh (min c.max_vms_speed_kmh v))] }] }
      else ⟨⟨fo, some v⟩, vio, ch, tr⟩ := rfl

/-- Unfolding of the R3 ceiling clamp, in constructor form. -/
theorem rule_r3_clamp_eq (c : STIConstraints) (f : Int) (fo : Option Int)
    (vo : Option Int) (vio : List String) (ch : List (String × Int × Int))
    (tr : List RuleTrigger) :
    rule_r3_clamp c f ⟨⟨fo, vo⟩, vio, ch, tr⟩ =
      if max 0 (min c.max_fan_stage f) ≠ f then
        { out := ⟨some (max 0 (min c.max_fan_stage f)), vo⟩
          violations := vio ++ ["FAN_CLAMP"]
          changed := ch ++ [("fan_stage", f, max 0 (min c.max_fan_stage f))]
          triggers := tr ++
            [{ rule_id := "R_FAN_CLAMP"
               severity := "high"
               message := "Fan stage clamped to allowed maximum."
               evidence := [("proposed_fan_stage", f), ("max_fan_stage", c.max_fan_stage)]
               changed := [("fan_stage", f, max 0 (min c.max_fan_stage f))] }] }
      else ⟨⟨some (max 0 (min c.max_fan_stage f)), vo⟩, vio, ch, tr⟩ := rfl

/-- Unfolding of R3 on a present fan value, in constructor form. -/
theorem rule_r3_some (c : STIConstraints) (inc : Bool) (f0 : Int)
    (vo : Option Int) (vio : List String) (ch : List (String × Int × Int))
    (tr : List RuleTrigger) :
    rule_r3 c inc ⟨⟨some f0, vo⟩, vio, ch, tr⟩ =
      if inc ∧ 0 < c.incident_min_fan_stage ∧ f0 < c.incident_min_fan_stage then
        rule_r3_clamp c c.incident_min_fan_stage
          ⟨⟨some f0, vo⟩, vio ++ ["INCIDENT_MIN_FAN_STAGE"],
            ch ++ [("fan_stage_incident_min", f0, c.incident_min_fan_stage)],
            tr ++
              [{ rule_id := "R_INCIDENT_MIN_FAN_STAGE"
                 severity := "high"
                 message := "During incident: minimum fan stage enforced."
                 evidence := [("proposed_fan_stage", f0),
                              ("incident_min_fan_stage", c.incident_min_fan_stage)]
                 changed := [("fan_stage", f0, c.incident_min_fan_stage)] }]⟩
      else rule_r3_clamp c f0 ⟨⟨some f0, vo⟩, vio, ch, tr⟩ := rfl

/-- Unfolding of R4 on a present fan value and a previous filtered fan value,
in constructor form. -/
theorem rule_r4_eq (c : STIConstraints) (pv : Option Int) (vo : Option Int)
    (f pf : Int) (vio : List String) (ch : List (String × Int × Int))
    (tr : List RuleTrigger) :
    rule_r4 c (some ⟨some pf, pv⟩) ⟨⟨some f, vo⟩, vio, ch, tr⟩ =
      if c.max_fan_step_per_s < |f - pf| then
        { out := ⟨some (pf + c.max_fan_step_per_s * (if pf < f then 1 else -1)), vo⟩
          violations := vio ++ ["FAN_RAMP_RATE"]
          changed := ch ++
            [("fan_stage_ramp", f, pf + c.max_fan_step_per_s * (if pf < f then 1 else -1))]
          triggers := tr ++
            [{ rule_id := "R_FAN_RAMP_RATE"
               severity := "warning"
               message := "Fan ramp rate limited (stage/s)."
               evidence := [("prev_fan_stage", pf), ("proposed_after_clamp", pf),
                            ("max_step_per_s", c.max_fan_step_per_s)]
               changed := [("fan_stage", f,
                 pf + c.max_fan_step_per_s * (if pf < f then 1 else -1))] }] }
      else ⟨⟨some f, vo⟩, vio, ch, tr⟩ := rfl

/-- R1 never touches the fan-stage field. -/
theorem rule_r1_fan (c : STIConstraints) (tags : Tags) (inc : Bool)
    (st : PipeState) : (rule_r1 c tags inc st).out.fan_stage = st.out.fan_stage := by
  obtain ⟨⟨fo, vo⟩, vio, ch, tr⟩ := st
  cases vo with
  | none => rfl
  | some p =>
    rw [rule_r1_some]
    split_ifs <;> rfl

/-- R1 keeps the vms field present. -/
theorem rule_r1_vms_some (c : STIConstraints) (tags : Tags) (inc : Bool)
    (st : PipeState) (v : Int) (h : st.out.vms_speed = some v) :
    ∃ w, (rule_r1 c tags inc st).out.vms_speed = some w := by
  obtain ⟨⟨fo, vo⟩, vio, ch, tr⟩ := st
  cases vo with
  | none => simp at h
  | some a =>
    rw [rule_r1_some]
    split_ifs <;> exact ⟨_, rfl⟩

/-- R1 is the identity when no incident is flagged. -/
theorem rule_r1_skip (c : STIConstraints) (tags : Tags) (st : PipeState) :
    rule_r1 c tags false st = st := by
  obtain ⟨⟨fo, vo⟩, vio, ch, tr⟩ := st
  cases vo with
  | none => rfl
  | some p => rw [rule_r1_some, if_neg (by simp)]

/-- R2 never touches the fan-stage field. -/
theorem rule_r2_fan (c : STIConstraints) (st : PipeState) :
    (rule_r2 c st).out.fan_stage = st.out.fan_stage := by
  obtain ⟨⟨fo, vo⟩, vio, ch, tr⟩ := st
  cases vo with
  | none => rfl
  | some v =>
    rw [rule_r2_some]
    split_ifs <;> rfl

/-- After R2 the vms speed is exactly the band clamp of its input value. -/
theorem rule_r2_vms_val (c : STIConstraints) (st : PipeState) (v : Int)
    (h : st.out.vms_speed = some v) :
    (rule_r2 c st).out.vms_speed =
      some (max c.min_vms_speed_kmh (min c.max_vms_speed_kmh v)) := by
  obtain ⟨⟨fo, vo⟩, vio, ch, tr⟩ := st
  cases vo with
  | none => simp at h
  | some a =>
    have ha : a = v := by simpa using h
    subst ha
    rw [rule_r2_some]
    split_ifs with hne
    · rfl
    · simp only [ne_eq, not_not] at hne
      simp [hne]

/-- R2 is the identity on an in-band vms speed. -/
theorem rule_r2_inband (c : STIConstraints) (st : PipeState) (v : Int)
    (h : st.out.vms_speed = some v)
    (h1 : c.min_vms_speed_kmh ≤ v) (h2 : v ≤ c.max_vms_speed_kmh) :
    rule_r2 c st = st := by
  obtain ⟨⟨fo, vo⟩, vio, ch, tr⟩ := st
  cases vo with
  | none => rfl
  | some a =>
    have ha : a = v := by simpa using h
    subst ha
    rw [rule_r2_some, if_neg]
    simp only [ne_eq, not_not]
    rw [min_eq_right h2, max_eq_right h1]

/-- Any trigger present after R2 was already there or is the VMS clamp. -/
theorem rule_r2_trigger_ids (c : STIConstraints) (st : PipeState) :
    ∀ t ∈ (rule_r2 c st).triggers, t ∈ st.triggers ∨ t.rule_id = "R_VMS_CLAMP" := by
  obtain ⟨⟨fo, vo⟩, vio, ch, tr⟩ := st
  cases vo with
  | none => exact fun t ht => Or.inl ht
  | some v =>
    intro t ht
    rw [rule_r2_some] at ht
    split_ifs at ht
    · simp only [List.mem_append, List.mem_singleton] at ht
      rcases ht with ht | ht
      · exact Or.inl ht
      · subst ht; exact Or.inr rfl
    · exact Or.inl ht

/-- R3 never touches the vms-speed field. -/
theorem rule_r3_vms (c : STIConstraints) (inc : Bool) (st : PipeState) :
    (rule_r3 c inc st).out.vms_speed = st.out.vms_speed := by
  obtain ⟨⟨fo, vo⟩, vio, ch, tr⟩ := st
  cases fo with
  | none => rfl
  | some f0 =>
    rw [rule_r3_some]
    split_ifs <;> rw [rule_r3_clamp_eq] <;> split_ifs <;> rfl

/-- After R3 the fan stage is the ceiling clamp of some intermediate value. -/
theorem rule_r3_fan_val (c : STIConstraints) (inc : Bool) (st : PipeState)
    (f0 : Int) (h : st.out.fan_stage = some f0) :
    ∃ f, (rule_r3 c inc st).out.fan_stage = some (max 0 (min c.max_fan_stage f)) := by
  obtain ⟨⟨fo, vo⟩, vio, ch, tr⟩ := st
  cases fo with
  | none => simp at h
  | some a =>
    rw [rule_r3_some]
    split_ifs
    · exact ⟨c.incident_min_fan_stage, by rw [rule_r3_clamp_eq]; split_ifs <;> rfl⟩
    · exact ⟨a, by rw [rule_r3_clamp_eq]; split_ifs <;> rfl⟩

/-- R3 is the identity when no incident is flagged and the fan stage is
already inside [0, max_fan_stage]. -/
theorem rule_r3_id (c : STIConstraints) (f0 : Int) (vo : Option Int)
    (vio : List String) (ch : List (String × Int × Int)) (tr : List RuleTrigger)
    (h0 : 0 ≤ f0) (h1 : f0 ≤ c.max_fan_stage) :
    rule_r3 c false ⟨⟨some f0, vo⟩, vio, ch, tr⟩ = ⟨⟨some f0, vo⟩, vio, ch, tr⟩ := by
  have hf2 : max 0 (min c.max_fan_stage f0) = f0 := by
    rw [min_eq_right h1, max_eq_right h0]
  rw [rule_r3_some, if_neg (by simp), rule_r3_clamp_eq, hf2, if_neg (by simp)]

/-- Any trigger present after R3 with no incident flagged was already there
or is the fan ceiling clamp. -/
theorem rule_r3_trigger_ids (c : STIConstraints) (st : PipeState) :
    ∀ t ∈ (rule_r3 c false st).triggers, t ∈ st.triggers ∨ t.rule_id = "R_FAN_CLAMP" := by
  obtain ⟨⟨fo, vo⟩, vio, ch, tr⟩ := st
  cases fo with
  | none => exact fun t ht => Or.inl ht
  | some f0 =>
    intro t ht
    rw [rule_r3_some, if_neg (by simp), rule_r3_clamp_eq] at ht
    split_ifs at ht
    · simp only [List.mem_append, List.mem_singleton] at ht
      rcases ht with ht | ht
      · exact Or.inl ht
      · subst ht; exact Or.inr rfl
    · exact Or.inl ht

/-- R4 never touches the vms-speed field. -/
theorem rule_r4_vms (c : STIConstraints) (prev : Option Recommendation)
    (st : PipeState) : (rule_r4 c prev st).out.vms_speed = st.out.vms_speed := by
  obtain ⟨⟨fo, vo⟩, vio, ch, tr⟩ := st
  cases fo with
  | none => rfl
  | some f =>
    cases prev with
    | none => rfl
    | some pr =>
      obtain ⟨pfo, pvo⟩ := pr
      cases pfo with
      | none => rfl
      | some pf =>
        rw [rule_r4_eq]
        split_ifs <;> rfl

/-- R4 is the identity when there is no previous filtered recommendation. -/
theorem rule_r4_no_prev (c : STIConstraints) (st : PipeState) :
    rule_r4 c none st = st := by
  obtain ⟨⟨fo, vo⟩, vio, ch, tr⟩ := st
  cases fo <;> rfl

/-- R4 is the identity when the fan-stage change is within the ramp limit. -/
theorem rule_r4_small (c : STIConstraints) (pr : Recommendation)
    (st : PipeState) (f pf : Int) (h : st.out.fan_stage = some f)
    (hp : pr.fan_stage = some pf) (hd : |f - pf| ≤ c.max_fan_step_per_s) :
    rule_r4 c (some pr) st = st := by
  obtain ⟨⟨fo, vo⟩, vio, ch, tr⟩ := st
  obtain ⟨pfo, pvo⟩ := pr
  cases fo with
  | none => rfl
  | some a =>
    cases pfo with
    | none => rfl
    | some b =>
      have ha : a = f := by simpa using h
      have hb : b = pf := by simpa using hp
      subst ha
      subst hb
      rw [rule_r4_eq, if_neg (not_lt.mpr hd)]

/-- R4 keeps the fan stage inside [0, max_fan_stage] provided the ramp step
is nonnegative and the previous filtered fan stage was inside the band. -/
theorem rule_r4_fan_bounds (c : STIConstraints) (prev : Option Recommendation)
    (st : PipeState) (f : Int) (h : st.out.fan_stage = some f)
    (h0 : 0 ≤ f) (h1 : f ≤ c.max_fan_stage)
    (hstep : 0 ≤ c.max_fan_step_per_s)
    (hprev : ∀ pr pf, prev = some pr → pr.fan_stage = some pf →
      0 ≤ pf ∧ pf ≤ c.max_fan_stage) :
    ∃ g, (rule_r4 c prev st).out.fan_stage = some g
      ∧ 0 ≤ g ∧ g ≤ c.max_fan_stage := by
  obtain ⟨⟨fo, vo⟩, vio, ch, tr⟩ := st
  cases fo with
  | none => simp at h
  | some a =>
    have ha : a = f := by simpa using h
    subst ha
    cases prev with
    | none => exact ⟨a, rfl, h0, h1⟩
    | some pr =>
      obtain ⟨pfo, pvo⟩ := pr
      cases pfo with
      | none => exact ⟨a, rfl, h0, h1⟩
      | some b =>
        obtain ⟨hb0, hb1⟩ := hprev ⟨some b, pvo⟩ b rfl rfl
        rw [rule_r4_eq]
        by_cases hgt : c.max_fan_step_per_s < |a - b|
        · rw [if_pos hgt]
          by_cases hba : b < a
          · rw [if_pos hba]
            have habs : |a - b| = a - b := abs_of_nonneg (by omega)
            rw [habs] at hgt
            exact ⟨b + c.max_fan_step_per_s * 1, rfl, by omega, by omega⟩
          · rw [if_neg hba]
            have habs : |a - b| = -(a - b) := abs_of_nonpos (by omega)
            rw [habs] at hgt
            exact ⟨b + c.max_fan_step_per_s * (-1), rfl, by omega, by omega⟩
        · rw [if_neg hgt]
          exact ⟨a, rfl, h0, h1⟩

/-- Any trigger present after R4 was already there or is the ramp limiter. -/
theorem rule_r4_trigger_ids (c : STIConstraints) (prev : Option Recommendation)
    (st : PipeState) :
    ∀ t ∈ (rule_r4 c prev st).triggers,
      t ∈ st.triggers ∨ t.rule_id = "R_FAN_RAMP_RATE" := by
  obtain ⟨⟨fo, vo⟩, vio, ch, tr⟩ := st
  cases fo with
  | none => exact fun t ht => Or.inl ht
  | some f =>
    cases prev with
    | none => exact fun t ht => Or.inl ht
    | some pr =>
      obtain ⟨pfo, pvo⟩ := pr
      cases pfo with
      | none => exact fun t ht => Or.inl ht
      | some pf =>
        intro t ht
        rw [rule_r4_eq] at ht
        split_ifs at ht
        · simp only [List.mem_append, List.mem_singleton] at ht
          rcases ht with ht | ht
          · exact Or.inl ht
          · subst ht; exact Or.inr rfl
        · simp only [List.mem_append, List.mem_singleton] at ht
          rcases ht with ht | ht
          · exact Or.inl ht
          · subst ht; exact Or.inr rfl
        · exact Or.inl ht

/-- `filter_recommendation` projects the final pipeline state. -/
theorem filter_recommendation_eq (rec : Recommendation) (current_tags : Tags)
    (prev_rec : Option Recommendation) (c : STIConstraints) :
    filter_recommendation rec current_tags prev_rec c =
      ((sti_pipeline rec current_tags prev_rec c).out,
       { violations := (sti_pipeline rec current_tags prev_rec c).violations
         changed := (sti_pipeline rec current_tags prev_rec c).changed
         triggers := (sti_pipeline rec current_tags prev_rec c).triggers }) := rfl

/-- Absent incident tags are read as incident inactive by `derive_state`. -/
theorem derive_state_no_incident (tags : Tags)
    (h1 : tags.lookup "Z2.EVENT.IncidentFlag" = none)
    (h2 : tags.lookup "Z3.EVT.Incident.Active" = none) :
    (derive_state tags).incident_active = false := by
  simp [derive_state, any_true, get_float, h1, h2]
  norm_num

/-- R3 is the identity (for any incident flag) when the fan stage is at least
the incident minimum and inside [0, max_fan_stage]. -/
theorem rule_r3_id2 (c : STIConstraints) (inc : Bool) (f : Int) (vo : Option Int)
    (vio : List String) (ch : List (String × Int × Int)) (tr : List RuleTrigger)
    (hmin : c.incident_min_fan_stage ≤ f) (h0 : 0 ≤ f) (h1 : f ≤ c.max_fan_stage) :
    rule_r3 c inc ⟨⟨some f, vo⟩, vio, ch, tr⟩ = ⟨⟨some f, vo⟩, vio, ch, tr⟩ := by
  have hff : max 0 (min c.max_fan_stage f) = f := by
    rw [min_eq_right h1, max_eq_right h0]
  rw [rule_r3_some, if_neg (fun h => absurd h.2.2 (not_lt.mpr hmin)),
    rule_r3_clamp_eq, hff, if_neg (by simp)]

/-! ## Claim C3 (amended): totality and output bounds of the filter -/

/-- C3 (amended): for every recommendation carrying both integer fields, every
snapshot, every constraint configuration with a consistent VMS band, a
nonnegative fan ceiling and a nonnegative ramp step, and every previous
filtered recommendation whose fan stage (if present) lies in
[0, max_fan_stage], `filter_recommendation` returns (total, no exception in
the source) a vms speed inside the band and a fan stage inside
[0, max_fan_stage]; and a snapshot containing neither incident tag is treated
as incident inactive, so no incident rule fires (every trigger is one of the
three non-incident rules). -/
theorem C3_filter_total_inband (rec : Recommendation) (tags : Tags)
    (prev : Option Recommendation) (c : STIConstraints) (v f : Int)
    (hv : rec.vms_speed = some v) (hf : rec.fan_stage = some f)
    (hband : c.min_vms_speed_kmh ≤ c.max_vms_speed_kmh)
    (hM : 0 ≤ c.max_fan_stage) (hstep : 0 ≤ c.max_fan_step_per_s)
    (hprev : ∀ pr pf, prev = some pr → pr.fan_stage = some pf →
      0 ≤ pf ∧ pf ≤ c.max_fan_stage) :
    (∃ w, (filter_recommendation rec tags prev c).1.vms_speed = some w
        ∧ c.min_vms_speed_kmh ≤ w ∧ w ≤ c.max_vms_speed_kmh)
    ∧ (∃ g, (filter_recommendation rec tags prev c).1.fan_stage = some g
        ∧ 0 ≤ g ∧ g ≤ c.max_fan_stage)
    ∧ ((tags.lookup "Z2.EVENT.IncidentFlag" = none
          ∧ tags.lookup "Z3.EVT.Incident.Active" = none) →
        (derive_state tags).incident_active = false
        ∧ ∀ t ∈ (filter_recommendation rec tags prev c).2.triggers,
            t.rule_id = "R_VMS_CLAMP" ∨ t.rule_id = "R_FAN_CLAMP"
              ∨ t.rule_id = "R_FAN_RAMP_RATE") := by
  obtain ⟨w1, hw1⟩ :=
    rule_r1_vms_some c tags (derive_state tags).incident_active ⟨rec, [], [], []⟩ v hv
  have hf1 : (rule_r1 c tags (derive_state tags).incident_active
      ⟨rec, [], [], []⟩).out.fan_stage = some f :=
    (rule_r1_fan c tags _ ⟨rec, [], [], []⟩).trans hf
  have hw2 := rule_r2_vms_val c _ w1 hw1
  have hf2 : (rule_r2 c (rule_r1 c tags (derive_state tags).incident_active
      ⟨rec, [], [], []⟩)).out.fan_stage = some f :=
    (rule_r2_fan c _).trans hf1
  obtain ⟨f3, hf3⟩ := rule_r3_fan_val c (derive_state tags).incident_active _ f hf2
  have hv3 : (rule_r3 c (derive_state tags).incident_active
      (rule_r2 c (rule_r1 c tags (derive_state tags).incident_active
        ⟨rec, [], [], []⟩))).out.vms_speed =
      some (max c.min_vms_speed_kmh (min c.max_vms_speed_kmh w1)) :=
    (rule_r3_vms c _ _).trans hw2
  obtain ⟨g, hg, hgb0, hgb1⟩ :=
    rule_r4_fan_bounds c prev _ (max 0 (min c.max_fan_stage f3)) hf3
      (le_max_left _ _) (max_le hM (min_le_left _ _)) hstep hprev
  have hv4 : (rule_r4 c prev (rule_r3 c (derive_state tags).incident_active
      (rule_r2 c (rule_r1 c tags (derive_state tags).incident_active
        ⟨rec, [], [], []⟩)))).out.vms_speed =
      some (max c.min_vms_speed_kmh (min c.max_vms_speed_kmh w1)) :=
    (rule_r4_vms c prev _).trans hv3
  refine ⟨⟨max c.min_vms_speed_kmh (min c.max_vms_speed_kmh w1), hv4,
      le_max_left _ _, max_le hband (min_le_left _ _)⟩,
    ⟨g, hg, hgb0, hgb1⟩, ?_⟩
  intro hno
  have hincf := derive_state_no_incident tags hno.1 hno.2
  refine ⟨hincf, ?_⟩
  intro t ht
  rcases rule_r4_trigger_ids c prev _ t ht with ht3 | hid
  · rw [hincf] at ht3
    rcases rule_r3_trigger_ids c _ t ht3 with ht2 | hid
    · rcases rule_r2_trigger_ids c _ t ht2 with ht1 | hid
      · rw [rule_r1_skip] at ht1
        simp at ht1
      · exact Or.inl hid
    · exact Or.inr (Or.inl hid)
  · exact Or.inr (Or.inr hid)

/-- C3 counterexample to the claim as frozen: with a negative ramp step
(`max_fan_step_per_s = -1`), which the claim's hypotheses allow, the returned
fan stage is -1, outside [0, max_fan_stage]. -/
theorem C3_counterexample :
    STIConstraints.min_vms_speed_kmh { max_fan_step_per_s := -1 } ≤
      STIConstraints.max_vms_speed_kmh { max_fan_step_per_s := -1 }
    ∧ 0 ≤ STIConstraints.max_fan_stage { max_fan_step_per_s := -1 }
    ∧ (filter_recommendation ⟨some 1, some 60⟩ [] (some ⟨some 0, none⟩)
        { max_fan_step_per_s := -1 }).1.fan_stage = some (-1)
    ∧ ¬ (0 : Int) ≤ -1 := by
  have hinc := derive_state_no_incident [] rfl rfl
  refine ⟨by decide, by decide, ?_, by decide⟩
  have h1 : rule_r1 { max_fan_step_per_s := -1 } [] (derive_state []).incident_active
      ⟨⟨some 1, some 60⟩, [], [], []⟩ = ⟨⟨some 1, some 60⟩, [], [], []⟩ := by
    rw [hinc, rule_r1_skip]
  have h2 : rule_r2 { max_fan_step_per_s := -1 }
      (⟨⟨some 1, some 60⟩, [], [], []⟩ : PipeState) = ⟨⟨some 1, some 60⟩, [], [], []⟩ :=
    rule_r2_inband _ _ 60 rfl (by decide) (by decide)
  have h3 : rule_r3 { max_fan_step_per_s := -1 } (derive_state []).incident_active
      (⟨⟨some 1, some 60⟩, [], [], []⟩ : PipeState) = ⟨⟨some 1, some 60⟩, [], [], []⟩ := by
    rw [hinc]
    exact rule_r3_id _ 1 (some 60) [] [] [] (by decide) (by decide)
  rw [filter_recommendation_eq]
  unfold sti_pipeline
  rw [h1, h2, h3, rule_r4_eq]
  decide

/-- Witness for C3 at a concrete out-of-range proposal (fan 5, vms 120). -/
theorem C3_filter_total_inband_witness :
    (∃ w, (filter_recommendation ⟨some 5, some 120⟩ [] none {}).1.vms_speed = some w
        ∧ STIConstraints.min_vms_speed_kmh {} ≤ w
        ∧ w ≤ STIConstraints.max_vms_speed_kmh {})
    ∧ (∃ g, (filter_recommendation ⟨some 5, some 120⟩ [] none {}).1.fan_stage = some g
        ∧ 0 ≤ g ∧ g ≤ STIConstraints.max_fan_stage {})
    ∧ ((([] : Tags).lookup "Z2.EVENT.IncidentFlag" = none
          ∧ ([] : Tags).lookup "Z3.EVT.Incident.Active" = none) →
        (derive_state []).incident_active = false
        ∧ ∀ t ∈ (filter_recommendation ⟨some 5, some 120⟩ [] none {}).2.triggers,
            t.rule_id = "R_VMS_CLAMP" ∨ t.rule_id = "R_FAN_CLAMP"
              ∨ t.rule_id = "R_FAN_RAMP_RATE") :=
  C3_filter_total_inband ⟨some 5, some 120⟩ [] none {} 120 5 rfl rfl
    (by decide) (by decide) (by decide) (fun pr pf h => nomatch h)

/-! ## Claim C6 (amended): in-band recommendations pass unchanged -/

/-- C6 (amended): an already-in-band recommendation (vms inside the band, fan
inside [0, max_fan_stage] and within the ramp limit of the previous filtered
fan stage), filtered against a snapshot in which no incident reads active, is
returned unchanged with an empty violations list, no changes and no
triggers. -/
theorem C6_inband_identity (rec : Recommendation) (tags : Tags)
    (prev : Option Recommendation) (c : STIConstraints) (v f : Int)
    (hv : rec.vms_speed = some v) (hf : rec.fan_stage = some f)
    (hv1 : c.min_vms_speed_kmh ≤ v) (hv2 : v ≤ c.max_vms_speed_kmh)
    (hf0 : 0 ≤ f) (hf1 : f ≤ c.max_fan_stage)
    (hramp : ∀ pr pf, prev = some pr → pr.fan_stage = some pf →
      |f - pf| ≤ c.max_fan_step_per_s)
    (hni : (derive_state tags).incident_active = false) :
    filter_recommendation rec tags prev c = (rec, ⟨[], [], []⟩) := by
  obtain ⟨fo, vo⟩ := rec
  have hvo : vo = some v := by simpa using hv
  have hfo : fo = some f := by simpa using hf
  subst hvo
  subst hfo
  have h1 : rule_r1 c tags (derive_state tags).incident_active
      ⟨⟨some f, some v⟩, [], [], []⟩ = ⟨⟨some f, some v⟩, [], [], []⟩ := by
    rw [hni, rule_r1_skip]
  have h2 : rule_r2 c (⟨⟨some f, some v⟩, [], [], []⟩ : PipeState) =
      ⟨⟨some f, some v⟩, [], [], []⟩ :=
    rule_r2_inband c _ v rfl hv1 hv2
  have h3 : rule_r3 c (derive_state tags).incident_active
      (⟨⟨some f, some v⟩, [], [], []⟩ : PipeState) = ⟨⟨some f, some v⟩, [], [], []⟩ := by
    rw [hni]
    exact rule_r3_id c f (some v) [] [] [] hf0 hf1
  have h4 : rule_r4 c prev (⟨⟨some f, some v⟩, [], [], []⟩ : PipeState) =
      ⟨⟨some f, some v⟩, [], [], []⟩ := by
    cases prev with
    | none => exact rule_r4_no_prev c _
    | some pr =>
      obtain ⟨pfo, pvo⟩ := pr
      cases pfo with
      | none => rfl
      | some pf =>
        exact rule_r4_small c ⟨some pf, pvo⟩ _ f pf rfl rfl (hramp ⟨some pf, pvo⟩ pf rfl rfl)
  rw [filter_recommendation_eq]
  unfold sti_pipeline
  rw [h1, h2, h3, h4]

/-- C6 counterexample to the claim as frozen: against a snapshot that flags
an incident, an in-band recommendation (vms 90 inside [60, 100], fan 0 inside
[0, 3], ramp change 0) is still altered — the incident rule clamps the speed
to the displayed default 80 and reports a violation. -/
theorem C6_counterexample :
    ((60 : Int) ≤ 90 ∧ (90 : Int) ≤ 100 ∧ (0 : Int) ≤ 0 ∧ (0 : Int) ≤ 3
      ∧ |(0 : Int) - 0| ≤ 1)
    ∧ (filter_recommendation ⟨some 0, some 90⟩ [("Z3.EVT.Incident.Active", 1)]
        (some ⟨some 0, none⟩) {}).2.violations ≠ []
    ∧ (filter_recommendation ⟨some 0, some 90⟩ [("Z3.EVT.Incident.Active", 1)]
        (some ⟨some 0, none⟩) {}).1.vms_speed ≠ some 90 := by
  have hinc : (derive_state [("Z3.EVT.Incident.Active", (1 : Rat))]).incident_active = true := by
    simp [derive_state, any_true, get_float]
    norm_num
  have hlim : current_speed_limit [("Z3.EVT.Incident.Active", (1 : Rat))] = 80 := by
    simp [current_speed_limit]
  have h1 : rule_r1 {} [("Z3.EVT.Incident.Active", (1 : Rat))] true
      ⟨⟨some 0, some 90⟩, [], [], []⟩ =
      ⟨⟨some 0, some 80⟩, ["INCIDENT_NO_SPEED_INCREASE"],
        [("vms_speed_incident", 90, 80)],
        [{ rule_id := "R_INCIDENT_NO_SPEED_INCREASE"
           severity := "critical"
           message := "During incident: speed increase is not allowed."
           evidence := [("proposed_vms_speed", 90), ("current_speed_limit", 80)]
           changed := [("vms_speed", 90, 80)] }]⟩ := by
    rw [rule_r1_some, hlim, if_pos ⟨rfl, rfl⟩, if_pos (by decide : (80 : Int) < 90)]
    simp
  have h2 : rule_r2 {}
      (⟨⟨some 0, some 80⟩, ["INCIDENT_NO_SPEED_INCREASE"],
        [("vms_speed_incident", 90, 80)],
        [{ rule_id := "R_INCIDENT_NO_SPEED_INCREASE"
           severity := "critical"
           message := "During incident: speed increase is not allowed."
           evidence := [("proposed_vms_speed", 90), ("current_speed_limit", 80)]
           changed := [("vms_speed", 90, 80)] }]⟩ : PipeState) =
      ⟨⟨some 0, some 80⟩, ["INCIDENT_NO_SPEED_INCREASE"],
        [("vms_speed_incident", 90, 80)],
        [{ rule_id := "R_INCIDENT_NO_SPEED_INCREASE"
           severity := "critical"
           message := "During incident: speed increase is not allowed."
           evidence := [("proposed_vms_speed", 90), ("current_speed_limit", 80)]
           changed := [("vms_speed", 90, 80)] }]⟩ :=
    rule_r2_inband _ _ 80 rfl (by decide) (by decide)
  have h3 : rule_r3 {} true
      (⟨⟨some 0, some 80⟩, ["INCIDENT_NO_SPEED_INCREASE"],
        [("vms_speed_incident", 90, 80)],
        [{ rule_id := "R_INCIDENT_NO_SPEED_INCREASE"
           severity := "critical"
           message := "During incident: speed increase is not allowed."
           evidence := [("proposed_vms_speed", 90), ("current_speed_limit", 80)]
           changed := [("vms_speed", 90, 80)] }]⟩ : PipeState) =
      ⟨⟨some 0, some 80⟩, ["INCIDENT_NO_SPEED_INCREASE"],
        [("vms_speed_incident", 90, 80)],
        [{ rule_id := "R_INCIDENT_NO_SPEED_INCREASE"
           severity := "critical"
           message := "During incident: speed increase is not allowed."
           evidence := [("proposed_vms_speed", 90), ("current_speed_limit", 80)]
           changed := [("vms_speed", 90, 80)] }]⟩ :=
    rule_r3_id2 _ true 0 (some 80) _ _ _ (by decide) (by decide) (by decide)
  have h4 : rule_r4 {} (some ⟨some 0, none⟩)
      (⟨⟨some 0, some 80⟩, ["INCIDENT_NO_SPEED_INCREASE"],
        [("vms_speed_incident", 90, 80)],
        [{ rule_id := "R_INCIDENT_NO_SPEED_INCREASE"
           severity := "critical"
           message := "During incident: speed increase is not allowed."
           evidence := [("proposed_vms_speed", 90), ("current_speed_limit", 80)]
           changed := [("vms_speed", 90, 80)] }]⟩ : PipeState) =
      ⟨⟨some 0, some 80⟩, ["INCIDENT_NO_SPEED_INCREASE"],
        [("vms_speed_incident", 90, 80)],
        [{ rule_id := "R_INCIDENT_NO_SPEED_INCREASE"
           severity := "critical"
           message := "During incident: speed increase is not allowed."
           evidence := [("proposed_vms_speed", 90), ("current_speed_limit", 80)]
           changed := [("vms_speed", 90, 80)] }]⟩ :=
    rule_r4_small _ _ _ 0 0 rfl rfl (by decide)
  have hfil : filter_recommendation ⟨some 0, some 90⟩ [("Z3.EVT.Incident.Active", (1 : Rat))]
      (some ⟨some 0, none⟩) {} =
      (⟨some 0, some 80⟩,
       ⟨["INCIDENT_NO_SPEED_INCREASE"], [("vms_speed_incident", 90, 80)],
        [{ rule_id := "R_INCIDENT_NO_SPEED_INCREASE"
           severity := "critical"
           message := "During incident: speed increase is not allowed."
           evidence := [("proposed_vms_speed", 90), ("current_speed_limit", 80)]
           changed := [("vms_speed", 90, 80)] }]⟩) := by
    rw [filter_recommendation_eq]
    unfold sti_pipeline
    rw [hinc, h1, h2, h3, h4]
  refine ⟨by decide, ?_, ?_⟩
  · rw [hfil]
    simp
  · rw [hfil]
    decide

/-- Witness for C6 at a concrete in-band input (fan 1, vms 70, previous fan 1). -/
theorem C6_inband_identity_witness :
    filter_recommendation ⟨some 1, some 70⟩ [] (some ⟨some 1, none⟩) {} =
      (⟨some 1, some 70⟩, ⟨[], [], []⟩) :=
  C6_inband_identity ⟨some 1, some 70⟩ [] (some ⟨some 1, none⟩) {} 70 1 rfl rfl
    (by decide) (by decide) (by decide) (by decide)
    (by
      intro pr pf h hp
      injection h with h2
      subst h2
      simp at hp
      subst hp
      decide)
    (derive_state_no_incident [] rfl rfl)

/-! ## Claim C5 (amended): incident speed lock -/

/-- C5 (amended): against any snapshot in which an incident reads active and
the displayed speed-limit tag chain reads 60, with the incident rule enabled,
a VMS band containing 60, an in-band proposed fan stage that is at least
`incident_min_fan_stage` (in particular its default 0), filtering a
proposal of vms 90 yields filtered vms 60 and exactly one trigger, the
incident speed lock. -/
theorem C5_incident_speed_lock (tags : Tags) (c : STIConstraints) (f : Int)
    (hinc : (derive_state tags).incident_active = true)
    (hen : c.incident_no_speed_increase = true)
    (hlim : current_speed_limit tags = 60)
    (hb1 : c.min_vms_speed_kmh ≤ 60) (hb2 : (60 : Int) ≤ c.max_vms_speed_kmh)
    (hf0 : 0 ≤ f) (hf1 : f ≤ c.max_fan_stage)
    (hmin : c.incident_min_fan_stage ≤ f) :
    (filter_recommendation ⟨some f, some 90⟩ tags none c).1.vms_speed = some 60
    ∧ ((filter_recommendation ⟨some f, some 90⟩ tags none c).2.triggers).map
        RuleTrigger.rule_id = ["R_INCIDENT_NO_SPEED_INCREASE"] := by
  have h1 : rule_r1 c tags true ⟨⟨some f, some 90⟩, [], [], []⟩ =
      ⟨⟨some f, some 60⟩, ["INCIDENT_NO_SPEED_INCREASE"],
        [("vms_speed_incident", 90, 60)],
        [{ rule_id := "R_INCIDENT_NO_SPEED_INCREASE"
           severity := "critical"
           message := "During incident: speed increase is not allowed."
           evidence := [("proposed_vms_speed", 90), ("current_speed_limit", 60)]
           changed := [("vms_speed", 90, 60)] }]⟩ := by
    rw [rule_r1_some, hlim, if_pos ⟨rfl, hen⟩, if_pos (by decide : (60 : Int) < 90)]
    simp
  have h2 : rule_r2 c
      (⟨⟨some f, some 60⟩, ["INCIDENT_NO_SPEED_INCREASE"],
        [("vms_speed_incident", 90, 60)],
        [{ rule_id := "R_INCIDENT_NO_SPEED_INCREASE"
           severity := "critical"
           message := "During incident: speed increase is not allowed."
           evidence := [("proposed_vms_speed", 90), ("current_speed_limit", 60)]
           changed := [("vms_speed", 90, 60)] }]⟩ : PipeState) =
      ⟨⟨some f, some 60⟩, ["INCIDENT_NO_SPEED_INCREASE"],
        [("vms_speed_incident", 90, 60)],
        [{ rule_id := "R_INCIDENT_NO_SPEED_INCREASE"
           severity := "critical"
           message := "During incident: speed increase is not allowed."
           evidence := [("proposed_vms_speed", 90), ("current_speed_limit", 60)]
           changed := [("vms_speed", 90, 60)] }]⟩ :=
    rule_r2_inband c _ 60 rfl hb1 hb2
  have h3 : rule_r3 c true
      (⟨⟨some f, some 60⟩, ["INCIDENT_NO_SPEED_INCREASE"],
        [("vms_speed_incident", 90, 60)],
        [{ rule_id := "R_INCIDENT_NO_SPEED_INCREASE"
           severity := "critical"
           message := "During incident: speed increase is not allowed."
           evidence := [("proposed_vms_speed", 90), ("current_speed_limit", 60)]
           changed := [("vms_speed", 90, 60)] }]⟩ : PipeState) =
      ⟨⟨some f, some 60⟩, ["INCIDENT_NO_SPEED_INCREASE"],
        [("vms_speed_incident", 90, 60)],
        [{ rule_id := "R_INCIDENT_NO_SPEED_INCREASE"
           severity := "critical"
           message := "During incident: speed increase is not allowed."
           evidence := [("proposed_vms_speed", 90), ("current_speed_limit", 60)]
           changed := [("vms_speed", 90, 60)] }]⟩ :=
    rule_r3_id2 c true f (some 60) _ _ _ hmin hf0 hf1
  have hfil : filter_recommendation ⟨some f, some 90⟩ tags none c =
      (⟨some f, some 60⟩,
       ⟨["INCIDENT_NO_SPEED_INCREASE"], [("vms_speed_incident", 90, 60)],
        [{ rule_id := "R_INCIDENT_NO_SPEED_INCREASE"
           severity := "critical"
           message := "During incident: speed increase is not allowed."
           evidence := [("proposed_vms_speed", 90), ("current_speed_limit", 60)]
           changed := [("vms_speed", 90, 60)] }]⟩) := by
    rw [filter_recommendation_eq]
    unfold sti_pipeline
    rw [hinc, h1, h2, h3, rule_r4_no_prev]
  rw [hfil]
  exact ⟨rfl, rfl⟩

/-- C5 counterexample to the claim as frozen: the claim quantifies over every
constraint configuration with the incident rule enabled and a band containing
60, so it also covers `incident_min_fan_stage = 2`; there an in-band fan
proposal of 0 additionally fires the incident-minimum-fan rule, giving two
triggers instead of exactly one. -/
theorem C5_counterexample :
    (derive_state [("Z3.EVT.Incident.Active", 1),
        ("Z1.VMS.SIGN.V01.SpeedSet", 60)]).incident_active = true
    ∧ current_speed_limit [("Z3.EVT.Incident.Active", 1),
        ("Z1.VMS.SIGN.V01.SpeedSet", 60)] = 60
    ∧ STIConstraints.incident_no_speed_increase { incident_min_fan_stage := 2 } = true
    ∧ STIConstraints.min_vms_speed_kmh { incident_min_fan_stage := 2 } ≤ 60
    ∧ (60 : Int) ≤ STIConstraints.max_vms_speed_kmh { incident_min_fan_stage := 2 }
    ∧ (0 : Int) ≤ 0 ∧ (0 : Int) ≤ STIConstraints.max_fan_stage { incident_min_fan_stage := 2 }
    ∧ ¬ (((filter_recommendation ⟨some 0, some 90⟩
          [("Z3.EVT.Incident.Active", 1), ("Z1.VMS.SIGN.V01.SpeedSet", 60)]
          none { incident_min_fan_stage := 2 }).2.triggers).map RuleTrigger.rule_id
        = ["R_INCIDENT_NO_SPEED_INCREASE"]) := by
  have hinc : (derive_state [("Z3.EVT.Incident.Active", (1 : Rat)),
      ("Z1.VMS.SIGN.V01.SpeedSet", (60 : Rat))]).incident_active = true := by
    simp [derive_state, any_true, get_float]
    norm_num
  have hlim : current_speed_limit [("Z3.EVT.Incident.Active", (1 : Rat)),
      ("Z1.VMS.SIGN.V01.SpeedSet", (60 : Rat))] = 60 := by
    simp [current_speed_limit, get_float, pyint, List.lookup]
  refine ⟨hinc, hlim, rfl, by decide, by decide, by decide, by decide, ?_⟩
  have h1 : rule_r1 { incident_min_fan_stage := 2 }
      [("Z3.EVT.Incident.Active", (1 : Rat)), ("Z1.VMS.SIGN.V01.SpeedSet", (60 : Rat))] true
      ⟨⟨some 0, some 90⟩, [], [], []⟩ =
      ⟨⟨some 0, some 60⟩, ["INCIDENT_NO_SPEED_INCREASE"],
        [("vms_speed_incident", 90, 60)],
        [{ rule_id := "R_INCIDENT_NO_SPEED_INCREASE"
           severity := "critical"
           message := "During incident: speed increase is not allowed."
           evidence := [("proposed_vms_speed", 90), ("current_speed_limit", 60)]
           changed := [("vms_speed", 90, 60)] }]⟩ := by
    rw [rule_r1_some, hlim, if_pos ⟨rfl, rfl⟩, if_pos (by decide : (60 : Int) < 90)]
    simp
  have h2 : rule_r2 { incident_min_fan_stage := 2 }
      (⟨⟨some 0, some 60⟩, ["INCIDENT_NO_SPEED_INCREASE"],
        [("vms_speed_incident", 90, 60)],
        [{ rule_id := "R_INCIDENT_NO_SPEED_INCREASE"
           severity := "critical"
           message := "During incident: speed increase is not allowed."
           evidence := [("proposed_vms_speed", 90), ("current_speed_limit", 60)]
           changed := [("vms_speed", 90, 60)] }]⟩ : PipeState) =
      ⟨⟨some 0, some 60⟩, ["INCIDENT_NO_SPEED_INCREASE"],
        [("vms_speed_incident", 90, 60)],
        [{ rule_id := "R_INCIDENT_NO_SPEED_INCREASE"
           severity := "critical"
           message := "During incident: speed increase is not allowed."
           evidence := [("proposed_vms_speed", 90), ("current_speed_limit", 60)]
           changed := [("vms_speed", 90, 60)] }]⟩ :=
    rule_r2_inband _ _ 60 rfl (by decide) (by decide)
  have h3 : rule_r3 { incident_min_fan_stage := 2 } true
      (⟨⟨some 0, some 60⟩, ["INCIDENT_NO_SPEED_INCREASE"],
        [("vms_speed_incident", 90, 60)],
        [{ rule_id := "R_INCIDENT_NO_SPEED_INCREASE"
           severity := "critical"
           message := "During incident: speed increase is not allowed."
           evidence := [("proposed_vms_speed", 90), ("current_speed_limit", 60)]
           changed := [("vms_speed", 90, 60)] }]⟩ : PipeState) =
      ⟨⟨some 2, some 60⟩,
        ["INCIDENT_NO_SPEED_INCREASE", "INCIDENT_MIN_FAN_STAGE"],
        [("vms_speed_incident", 90, 60), ("fan_stage_incident_min", 0, 2)],
        [{ rule_id := "R_INCIDENT_NO_SPEED_INCREASE"
           severity := "critical"
           message := "During incident: speed increase is not allowed."
           evidence := [("proposed_vms_speed", 90), ("current_speed_limit", 60)]
           changed := [("vms_speed", 90, 60)] },
         { rule_id := "R_INCIDENT_MIN_FAN_STAGE"
           severity := "high"
           message := "During incident: minimum fan stage enforced."
           evidence := [("proposed_fan_stage", 0), ("incident_min_fan_stage", 2)]
           changed := [("fan_stage", 0, 2)] }]⟩ := by
    rw [rule_r3_some, if_pos ⟨rfl, by decide, by decide⟩, rule_r3_clamp_eq,
      if_neg (by decide)]
    decide
  have hfil : filter_recommendation ⟨some 0, some 90⟩
      [("Z3.EVT.Incident.Active", (1 : Rat)), ("Z1.VMS.SIGN.V01.SpeedSet", (60 : Rat))]
      none { incident_min_fan_stage := 2 } =
      (⟨some 2, some 60⟩,
       ⟨["INCIDENT_NO_SPEED_INCREASE", "INCIDENT_MIN_FAN_STAGE"],
        [("vms_speed_incident", 90, 60), ("fan_stage_incident_min", 0, 2)],
        [{ rule_id := "R_INCIDENT_NO_SPEED_INCREASE"
           severity := "critical"
           message := "During incident: speed increase is not allowed."
           evidence := [("proposed_vms_speed", 90), ("current_speed_limit", 60)]
           changed := [("vms_speed", 90, 60)] },
         { rule_id := "R_INCIDENT_MIN_FAN_STAGE"
           severity := "high"
           message := "During incident: minimum fan stage enforced."
           evidence := [("proposed_fan_stage", 0), ("incident_min_fan_stage", 2)]
           changed := [("fan_stage", 0, 2)] }]⟩) := by
    rw [filter_recommendation_eq]
    unfold sti_pipeline
    rw [hinc, h1, h2, h3, rule_r4_no_prev]
  rw [hfil]
  decide

/-- Witness for C5 at a concrete snapshot carrying the incident flag and a
displayed speed limit of 60, with the default constraints and fan proposal 0. -/
theorem C5_incident_speed_lock_witness :
    (filter_recommendation ⟨some 0, some 90⟩
      [("Z3.EVT.Incident.Active", 1), ("Z1.VMS.SIGN.V01.SpeedSet", 60)]
      none {}).1.vms_speed = some 60
    ∧ ((filter_recommendation ⟨some 0, some 90⟩
        [("Z3.EVT.Incident.Active", 1), ("Z1.VMS.SIGN.V01.SpeedSet", 60)]
        none {}).2.triggers).map RuleTrigger.rule_id
      = ["R_INCIDENT_NO_SPEED_INCREASE"] :=
  C5_incident_speed_lock
    [("Z3.EVT.Incident.Active", 1), ("Z1.VMS.SIGN.V01.SpeedSet", 60)] {} 0
    (by simp [derive_state, any_true, get_float]; norm_num)
    rfl
    (by simp [current_speed_limit, get_float, pyint, List.lookup])
    (by decide) (by decide) (by decide) (by decide) (by decide)

/-! ## Claim C4: ramp limiting over two engine steps -/

/-- Unfolding of `STIEngine.step` into its `filter_recommendation` call and
the engine state update. -/
theorem STIEngine_step_eq (c : STIConstraints) (p : Option Recommendation)
    (rec : Recommendation) (tags : Tags) :
    STIEngine.step ⟨c, p⟩ rec tags =
      ((filter_recommendation rec tags p c).1,
       (filter_recommendation rec tags p c).2,
       ⟨c, some (filter_recommendation rec tags p c).1⟩) := rfl

/-- One ramp-limited filtering step used twice by C4: with ramp step 1 and
fan ceiling 3, no incident, in-band vms and previous filtered fan stage `pf`
(0 or 1 away from the band edges), proposing fan 3 is limited to `pf + 1`
with exactly the ramp trigger. -/
theorem ramp_step_eval (c : STIConstraints) (tags : Tags)
    (hstep : c.max_fan_step_per_s = 1) (hmax : c.max_fan_stage = 3)
    (hinc : (derive_state tags).incident_active = false)
    (v : Int) (hv1 : c.min_vms_speed_kmh ≤ v) (hv2 : v ≤ c.max_vms_speed_kmh)
    (pf : Int) (pv : Option Int) (hpf0 : 0 ≤ pf) (hpf2 : pf ≤ 1) :
    filter_recommendation ⟨some 3, some v⟩ tags (some ⟨some pf, pv⟩) c =
      (⟨some (pf + 1), some v⟩,
       ⟨["FAN_RAMP_RATE"], [("fan_stage_ramp", 3, pf + 1)],
        [{ rule_id := "R_FAN_RAMP_RATE"
           severity := "warning"
           message := "Fan ramp rate limited (stage/s)."
           evidence := [("prev_fan_stage", pf), ("proposed_after_clamp", pf),
                        ("max_step_per_s", 1)]
           changed := [("fan_stage", 3, pf + 1)] }]⟩) := by
  have h2 : rule_r2 c (⟨⟨some 3, some v⟩, [], [], []⟩ : PipeState) =
      ⟨⟨some 3, some v⟩, [], [], []⟩ :=
    rule_r2_inband c _ v rfl hv1 hv2
  have h3 : rule_r3 c false (⟨⟨some 3, some v⟩, [], [], []⟩ : PipeState) =
      ⟨⟨some 3, some v⟩, [], [], []⟩ :=
    rule_r3_id c 3 (some v) [] [] [] (by decide) (by omega)
  have hgt : c.max_fan_step_per_s < |(3 : Int) - pf| := by
    rw [hstep, abs_of_nonneg (by omega : (0 : Int) ≤ 3 - pf)]
    omega
  have hlt : pf < 3 := by omega
  rw [filter_recommendation_eq]
  unfold sti_pipeline
  rw [hinc, rule_r1_skip, h2, h3, rule_r4_eq, if_pos hgt, if_pos hlt, hstep]
  norm_num

/-- C4: with `max_fan_step_per_s = 1` and `max_fan_stage = 3`, an engine whose
previous filtered recommendation has fan stage 0, fed a proposal of fan 3 and
in-band vms against a snapshot with no incident flagged, filters to fan 1
with exactly one `R_FAN_RAMP_RATE` trigger; a second step proposing fan 3
again (the engine now remembering 1) filters to fan 2. -/
theorem C4_ramp_two_steps (c : STIConstraints) (tags1 tags2 : Tags)
    (hstep : c.max_fan_step_per_s = 1) (hmax : c.max_fan_stage = 3)
    (hinc1 : (derive_state tags1).incident_active = false)
    (hinc2 : (derive_state tags2).incident_active = false)
    (v1 v2 : Int)
    (hv11 : c.min_vms_speed_kmh ≤ v1) (hv12 : v1 ≤ c.max_vms_speed_kmh)
    (hv21 : c.min_vms_speed_kmh ≤ v2) (hv22 : v2 ≤ c.max_vms_speed_kmh)
    (pv : Option Int) :
    (STIEngine.step ⟨c, some ⟨some 0, pv⟩⟩ ⟨some 3, some v1⟩ tags1).1.fan_stage = some 1
    ∧ ((STIEngine.step ⟨c, some ⟨some 0, pv⟩⟩ ⟨some 3, some v1⟩ tags1).2.1.triggers).map
        RuleTrigger.rule_id = ["R_FAN_RAMP_RATE"]
    ∧ (STIEngine.step
        (STIEngine.step ⟨c, some ⟨some 0, pv⟩⟩ ⟨some 3, some v1⟩ tags1).2.2
        ⟨some 3, some v2⟩ tags2).1.fan_stage = some 2 := by
  have hfilA := ramp_step_eval c tags1 hstep hmax hinc1 v1 hv11 hv12 0 pv
    (by decide) (by decide)
  have hfilB := ramp_step_eval c tags2 hstep hmax hinc2 v2 hv21 hv22 1 (some v1)
    (by decide) (by decide)
  norm_num at hfilA hfilB
  rw [STIEngine_step_eq, hfilA]
  refine ⟨rfl, rfl, ?_⟩
  rw [STIEngine_step_eq, hfilB]

/-- Witness for C4 with the default constraints, empty snapshots and in-band
vms 80 on both steps. -/
theorem C4_ramp_two_steps_witness :
    (STIEngine.step ⟨{}, some ⟨some 0, none⟩⟩ ⟨some 3, some 80⟩ []).1.fan_stage = some 1
    ∧ ((STIEngine.step ⟨{}, some ⟨some 0, none⟩⟩ ⟨some 3, some 80⟩ []).2.1.triggers).map
        RuleTrigger.rule_id = ["R_FAN_RAMP_RATE"]
    ∧ (STIEngine.step
        (STIEngine.step ⟨{}, some ⟨some 0, none⟩⟩ ⟨some 3, some 80⟩ []).2.2
        ⟨some 3, some 80⟩ []).1.fan_stage = some 2 :=
  C4_ramp_two_steps {} [] [] rfl rfl
    (derive_state_no_incident [] rfl rfl) (derive_state_no_incident [] rfl rfl)
    80 80 (by decide) (by decide) (by decide) (by decide) none

/-- On every previous stage the source's threshold-list indexing tolerates
(−3..3, with Python's negative-index wrap), the full translation of the fan
controller succeeds and returns exactly the restricted controller's value. -/
theorem fan_checked_agrees_on_domain (s : Int) (co_ppm vis_pct : Rat)
    (h1 : -3 ≤ s) (h2 : s ≤ 3) :
    fan_stage_with_hysteresis_checked s co_ppm vis_pct
      = some (fan_stage_with_hysteresis s co_ppm vis_pct) := by
  have h3 : s = -3 ∨ s = -2 ∨ s = -1 ∨ s = 0 ∨ s = 1 ∨ s = 2 ∨ s = 3 := by omega
  rcases h3 with rfl | rfl | rfl | rfl | rfl | rfl | rfl <;>
    simp only [fan_stage_with_hysteresis_checked, fan_stage_with_hysteresis,
      fan_transition, pylist_get3, upThresh, downThresh] <;>
    norm_num <;>
    (try split_ifs) <;>
    first
      | rfl
      | decide
      | (exfalso; linarith)

/-- The restricted fan controller always lands in 0..3 (the source's final
clamp). -/
theorem fan_stage_total_bounds (s : Int) (co_ppm vis_pct : Rat) :
    0 ≤ fan_stage_with_hysteresis s co_ppm vis_pct
      ∧ fan_stage_with_hysteresis s co_ppm vis_pct ≤ 3 := by
  unfold fan_stage_with_hysteresis
  omega

/-- When the demand period is nonzero and the incoming dynamic fan stage lies
in the tolerated −3..3 range, one loop iteration cannot raise: it produces a
snapshot, and the outgoing dynamic fan stage is the controller's clamped
output. -/
theorem gen_step_some (fns : MathFns) (sc : Scenario) (t0 : Int)
    (traffic_p : TrafficParams) (emis_p : EmissionParams) (segment : String)
    (t_s : Int) (g : GenState) (hper : sc.q_in_peak_period_s ≠ 0)
    (h1 : -3 ≤ g.fan_stage_dyn) (h2 : g.fan_stage_dyn ≤ 3) :
    ∃ snap g2, gen_step fns sc t0 traffic_p emis_p segment t_s g = some (snap, g2)
      ∧ g2.fan_stage_dyn = fan_stage_with_hysteresis g.fan_stage_dyn g.emis.co_ppm
          (vis_proxy_to_pct g.emis.vis_proxy) := by
  have hq : inflow fns sc t_s = some (max 0 (sc.q_in_base_veh_per_h +
      sc.q_in_peak_amp_veh_per_h *
        fns.sin (2 * fns.pi * (t_s : Rat) / (sc.q_in_peak_period_s : Rat)))) := by
    unfold inflow
    rw [if_neg hper]
  have hf := fan_checked_agrees_on_domain g.fan_stage_dyn g.emis.co_ppm
    (vis_proxy_to_pct g.emis.vis_proxy) h1 h2
  simp only [gen_step, hq, hf]
  exact ⟨_, _, rfl, rfl⟩

/-- With a nonzero demand period and a tolerated starting fan stage, the loop
never raises and yields exactly one snapshot per remaining second. -/
theorem gen_from_ok (fns : MathFns) (sc : Scenario) (t0 : Int)
    (traffic_p : TrafficParams) (emis_p : EmissionParams) (segment : String)
    (hper : sc.q_in_peak_period_s ≠ 0) :
    ∀ (n : Nat) (t_s : Int) (g : GenState),
      -3 ≤ g.fan_stage_dyn → g.fan_stage_dyn ≤ 3 →
      ∃ out, gen_from fns sc t0 traffic_p emis_p segment n t_s g = some out
        ∧ out.length = n := by
  intro n
  induction n with
  | zero => exact fun t_s g _ _ => ⟨[], rfl, rfl⟩
  | succ n ih =>
    intro t_s g h1 h2
    obtain ⟨snap, g2, hstep, hfan⟩ :=
      gen_step_some fns sc t0 traffic_p emis_p segment t_s g hper h1 h2
    have hb := fan_stage_total_bounds g.fan_stage_dyn g.emis.co_ppm
      (vis_proxy_to_pct g.emis.vis_proxy)
    obtain ⟨rest, hrest, hlen⟩ := ih (t_s + 1) g2 (by omega) (by omega)
    refine ⟨snap :: rest, ?_, by simp [hlen]⟩
    simp only [gen_from, hstep, hrest]

/-! ## Claim C1: determinism of the stream generator -/

/-- C1 (corrected): for every scenario whose demand period is nonzero and
whose configured fan stage lies in the tolerated −3..3 range — outside these
the source raises `ZeroDivisionError` in `inflow`, respectively `IndexError`
in `fan_stage_with_hysteresis`, during the first iteration and before any
snapshot is yielded — `generate_stream` at the default segment `S01` is a
pure function of the scenario configuration, the start time, the model
parameters and the (deterministic, seed-indexed) primitive interpretations:
the run succeeds, has exactly `duration_s` snapshots when the duration is
nonnegative, and two runs with identical arguments produce the same snapshot
list — hence for every second the two runs' snapshots carry equal tag
mappings, quality markers and scenario identifiers.  All noise is drawn from
`fns.gauss sc.seed`, re-seeded per run, which is what makes the last
conjunct the faithful rendering of "same config and seed, bit-identical
values". -/
theorem C1_generate_stream_deterministic (fns : MathFns) (sc : Scenario)
    (t0 : Int) (traffic_p : TrafficParams) (emis_p : EmissionParams)
    (hd : 0 ≤ sc.duration_s) (hper : sc.q_in_peak_period_s ≠ 0)
    (hf1 : -3 ≤ sc.fan_stage) (hf2 : sc.fan_stage ≤ 3) :
    ∃ run, generate_stream fns sc t0 traffic_p emis_p "S01" = some run
      ∧ (run.length : Int) = sc.duration_s
      ∧ generate_stream fns sc t0 traffic_p emis_p "S01"
          = generate_stream fns sc t0 traffic_p emis_p "S01" := by
  obtain ⟨out, hout, hlen⟩ := gen_from_ok fns sc t0 traffic_p emis_p "S01" hper
    sc.duration_s.toNat 0
    { traffic := { rho_veh_per_km := 25, v_kmh := 95, queue_index := 0 }
      emis := { co_ppm := 10, vis_proxy := 0.02, co_source_proxy := 0 }
      prev_inc := false
      fan_stage_dyn := sc.fan_stage
      rng_k := 0 } hf1 hf2
  refine ⟨out, hout, ?_, rfl⟩
  rw [hlen]
  exact Int.toNat_of_nonneg hd

/-- A one-second scenario with configured fan stage 4 (the threshold lists
have three entries, so the source's `down[stage - 1]` read raises
`IndexError`), and one with a zero demand period (the source's `inflow`
divides by it), both abort the run before the first snapshot: the stream is
not a `duration_s`-length snapshot list for every scenario. -/
theorem C1_counterexample :
    generate_stream fns0 { fan_stage := 4, duration_s := 1 } 0 {} {} "S01" = none
    ∧ generate_stream fns0 { q_in_peak_period_s := 0, duration_s := 1 } 0 {} {} "S01"
        = none
    ∧ Scenario.duration_s { fan_stage := 4, duration_s := 1 } = 1
    ∧ Scenario.duration_s { q_in_peak_period_s := 0, duration_s := 1 } = 1 :=
  ⟨rfl, rfl, rfl, rfl⟩

/-- Witness for C1 at the default scenario (duration 7200 s, period 1800 s,
fan stage 2) and concrete primitive interpretations. -/
theorem C1_generate_stream_deterministic_witness :
    ∃ run, generate_stream fns0 {} 0 {} {} "S01" = some run
      ∧ (run.length : Int) = Scenario.duration_s {}
      ∧ generate_stream fns0 {} 0 {} {} "S01" = generate_stream fns0 {} 0 {} {} "S01" :=
  C1_generate_stream_deterministic fns0 {} 0 {} {} (by decide) (by decide)
    (by decide) (by decide)
